import Mathlib

/-!
# Verification of the sqlexpr SQL-like boolean expression engine

A shallow embedding of the engine's core pipeline — lexer (`src/lexer.rs`),
recursive-descent parser (`src/parser.rs`) and tree-walking evaluator
(`src/evaluator.rs`) — with theorems settling the specification claims.

Modelling conventions:
* Rust `i64` values are Lean `Int`s; where Rust arithmetic can overflow the
  result is reduced with `wrap64` (two's-complement wraparound, the release
  profile semantics of the source crate).
* Rust `f64` values are modelled as exact fractions (`Frac`, an integer
  numerator/denominator pair compared by cross-multiplication).  All float
  values the engine itself creates are exact decimal literals or quotients,
  so the model is exact on them; IEEE rounding, NaN and infinities are
  outside the model.
* `HashMap<String, RuntimeValue>` is modelled as an association list.
* Recursive-descent parsing uses an explicit fuel argument (structural
  recursion); the fuel budget used by the top-level `parse` is generous
  enough that the fuel-exhaustion error is unreachable for every input
  considered here.
-/

deriving instance DecidableEq for Except

/-- Whether an `Except` result is a success. -/
def Except.isOkB : Except ε α → Bool
  | .ok _ => true
  | .error _ => false

namespace SqlExpr

/-! ## Exact model of f64 -/

/-- Exact fraction standing in for Rust `f64`.  Every float the lexer or
evaluator builds has a positive denominator. -/
structure Frac where
  num : Int
  den : Int
deriving DecidableEq, Repr

/-- Coercion `i as f64` (exact in the model). -/
def intF (i : Int) : Frac := ⟨i, 1⟩

/-- The float `0.0`. -/
def fracZero : Frac := ⟨0, 1⟩

/-- `f64` equality (`==`) by cross-multiplication. -/
def fracEqB (a b : Frac) : Bool := decide (a.num * b.den = b.num * a.den)

/-- `f64` strict order (`<`) by cross-multiplication (positive denominators). -/
def fracLtB (a b : Frac) : Bool := decide (a.num * b.den < b.num * a.den)

/-- `f64` order (`<=`) by cross-multiplication (positive denominators). -/
def fracLeB (a b : Frac) : Bool := decide (a.num * b.den ≤ b.num * a.den)

/-- Float negation. -/
def fracNeg (a : Frac) : Frac := ⟨-a.num, a.den⟩

/-- Float addition. -/
def fracAdd (a b : Frac) : Frac := ⟨a.num * b.den + b.num * a.den, a.den * b.den⟩

/-- Float subtraction. -/
def fracSub (a b : Frac) : Frac := ⟨a.num * b.den - b.num * a.den, a.den * b.den⟩

/-- Float multiplication. -/
def fracMul (a b : Frac) : Frac := ⟨a.num * b.num, a.den * b.den⟩

/-- Float division (the evaluator guards the divisor against zero before
using this); the sign is pushed into the numerator so the denominator stays
positive. -/
def fracDiv (a b : Frac) : Frac :=
  if b.num < 0 then ⟨-(a.num * b.den), a.den * (-b.num)⟩
  else ⟨a.num * b.den, a.den * b.num⟩

/-- Truncation toward zero, for the float remainder. -/
def fracTrunc (a : Frac) : Int := Int.tdiv a.num a.den

/-- Rust `f64` remainder `a % b` (truncated remainder: `a - b * trunc (a/b)`). -/
def fracRem (a b : Frac) : Frac := fracSub a (fracMul b (intF (fracTrunc (fracDiv a b))))

/-- Two's-complement wraparound of an `i64` arithmetic result, the release
profile semantics of Rust `+`, `-`, `*`, unary `-` on `i64`. -/
def wrap64 (x : Int) : Int := (x + 2 ^ 63) % 2 ^ 64 - 2 ^ 63

/-- Rust `i64` remainder `a % b` (truncated remainder). -/
def imod64 (a b : Int) : Int := wrap64 (Int.tmod a b)

/-- Lexicographic strict order on character lists: the order Rust uses to
compare `String`s (byte order on UTF-8 agrees with code-point order). -/
def charsLt : List Char → List Char → Bool
  | [], [] => false
  | [], _ :: _ => true
  | _ :: _, [] => false
  | a :: as_, b :: bs => if a = b then charsLt as_ bs else decide (a < b)

/-- Rust `String` strict order. -/
def strLtB (a b : String) : Bool := charsLt a.data b.data

/-- Rust `String` order (`<=`): total order, so `a <= b` iff `¬ b < a`. -/
def strLeB (a b : String) : Bool := ! strLtB b a

/-! ## AST (`src/ast.rs`) -/

/-- Literal values (`ValueLiteral` in `ast.rs`). -/
inductive ValueLiteral where
  | integer (n : Int)
  | float (q : Frac)
  | string (s : String)
  | null
  | boolean (b : Bool)
deriving DecidableEq, Repr

/-- Equality operators (`EqualityOp`). -/
inductive EqualityOp where
  | equal
  | notEqual
deriving DecidableEq, Repr

/-- Comparison operators (`ComparisonOp`). -/
inductive ComparisonOp where
  | greaterThan
  | greaterOrEqual
  | lessThan
  | lessOrEqual
deriving DecidableEq, Repr

/-- Value expressions (`ValueExpr`). -/
inductive ValueExpr where
  | add (l r : ValueExpr)
  | subtract (l r : ValueExpr)
  | multiply (l r : ValueExpr)
  | divide (l r : ValueExpr)
  | modulo (l r : ValueExpr)
  | unaryPlus (e : ValueExpr)
  | unaryMinus (e : ValueExpr)
  | literal (lit : ValueLiteral)
  | variable (name : String)
deriving DecidableEq, Repr

/-- Relational expressions (`RelationalExpr`). -/
inductive RelationalExpr where
  | equality (left : ValueExpr) (op : EqualityOp) (right : ValueExpr)
  | comparison (left : ValueExpr) (op : ComparisonOp) (right : ValueExpr)
  | like (expr : ValueExpr) (pattern : String) (escape : Option String) (negated : Bool)
  | between (expr lower upper : ValueExpr) (negated : Bool)
  | inList (expr : ValueExpr) (values : List ValueLiteral) (negated : Bool)
  | isNull (expr : ValueExpr) (negated : Bool)
deriving DecidableEq, Repr

/-- Boolean expressions, the sole top-level type (`BooleanExpr`). -/
inductive BooleanExpr where
  | or (l r : BooleanExpr)
  | and (l r : BooleanExpr)
  | not (e : BooleanExpr)
  | literal (b : Bool)
  | variable (name : String)
  | relational (rel : RelationalExpr)
deriving DecidableEq, Repr

/-! ## Tokens (`src/lexer.rs`) -/

/-- Lexical tokens (`Token` in `lexer.rs`). -/
inductive Token where
  | kwAnd | kwOr | kwNot | kwBetween | kwLike | kwEscape | kwIn | kwIs
  | kwTrue | kwFalse | kwNull
  | equal | notEqual | greaterThan | greaterOrEqual | lessThan | lessOrEqual
  | plus | minus | star | slash | percent
  | lparen | rparen | comma
  | ident (s : String)
  | strLit (s : String)
  | intLit (n : Int)
  | floatLit (q : Frac)
  | eof
deriving DecidableEq, Repr

/-! ## Lexer (`src/lexer.rs`)

All functions walk the remaining input as a `List Char` (the source keeps an
index into a `Vec<char>`; consuming the list is the same traversal).  Lex
errors are `String` messages; the source interpolates the offending position
and the full input into each message, a diagnostic detail elided here. -/

/-- Drop characters up to and including the next newline
(`skip_line_comment`, after the two dashes are consumed). -/
def dropToNewline : List Char → List Char
  | [] => []
  | c :: rest => if c = '\n' then rest else dropToNewline rest

/-- Skip a block comment body, after `/*` is consumed (`skip_block_comment`). -/
def skipBlockComment : List Char → Except String (List Char)
  | '*' :: '/' :: rest => .ok rest
  | _ :: rest => skipBlockComment rest
  | [] => .error "Unterminated block comment"

/-- Fuel-driven whitespace-and-comment skipper: the `loop`/`continue`
structure at the top of `next_token`.  One unit of fuel per source
character is ample, since every iteration consumes at least one. -/
def skipTrivia (fuel : Nat) (l : List Char) : Except String (List Char) :=
  match fuel with
  | 0 => .error "lexer fuel exhausted"
  | fuel + 1 =>
    match l with
    | [] => .ok []
    | c :: rest =>
      if c.isWhitespace then skipTrivia fuel rest
      else if c = '-' ∧ rest.head? = some '-' then
        skipTrivia fuel (dropToNewline (rest.drop 1))
      else if c = '/' ∧ rest.head? = some '*' then do
        skipTrivia fuel (← skipBlockComment (rest.drop 1))
      else .ok (c :: rest)

/-- Longest prefix of ASCII digits and the remainder. -/
def spanDigits : List Char → List Char × List Char
  | [] => ([], [])
  | c :: rest =>
    if c.isDigit then
      let (ds, r) := spanDigits rest
      (c :: ds, r)
    else ([], c :: rest)

/-- Longest prefix of ASCII hex digits and the remainder. -/
def spanHexDigits : List Char → List Char × List Char
  | [] => ([], [])
  | c :: rest =>
    if c.isDigit ∨ ('a' ≤ c ∧ c ≤ 'f') ∨ ('A' ≤ c ∧ c ≤ 'F') then
      let (ds, r) := spanHexDigits rest
      (c :: ds, r)
    else ([], c :: rest)

/-- Longest prefix of octal digits and the remainder. -/
def spanOctalDigits : List Char → List Char × List Char
  | [] => ([], [])
  | c :: rest =>
    if '0' ≤ c ∧ c ≤ '7' then
      let (ds, r) := spanOctalDigits rest
      (c :: ds, r)
    else ([], c :: rest)

/-- Numeric value of a decimal digit string. -/
def digitsToNat (l : List Char) : Nat :=
  l.foldl (fun acc c => 10 * acc + (c.toNat - '0'.toNat)) 0

/-- Numeric value of a hex digit string. -/
def hexDigitVal (c : Char) : Nat :=
  if c.isDigit then c.toNat - '0'.toNat
  else if 'a' ≤ c ∧ c ≤ 'f' then c.toNat - 'a'.toNat + 10
  else c.toNat - 'A'.toNat + 10

/-- Numeric value of a hex digit string. -/
def hexToNat (l : List Char) : Nat :=
  l.foldl (fun acc c => 16 * acc + hexDigitVal c) 0

/-- Numeric value of an octal digit string. -/
def octalToNat (l : List Char) : Nat :=
  l.foldl (fun acc c => 8 * acc + (c.toNat - '0'.toNat)) 0

/-- Largest `i64`. -/
def i64Max : Int := 2 ^ 63 - 1

/-- Rust `str::parse::<i64>` on an all-digit string: fails on overflow. -/
def parseI64 (digits : List Char) : Except String Int :=
  let v : Int := digitsToNat digits
  if v > i64Max then .error "Invalid integer literal"
  else .ok v

/-- Rust `i64::from_str_radix(_, 16)`: fails on overflow. -/
def parseHexI64 (digits : List Char) : Except String Int :=
  let v : Int := hexToNat digits
  if v > i64Max then .error "Invalid hexadecimal literal"
  else .ok v

/-- Rust `i64::from_str_radix(_, 8)`: fails on overflow. -/
def parseOctalI64 (digits : List Char) : Except String Int :=
  let v : Int := octalToNat digits
  if v > i64Max then .error "Invalid octal literal"
  else .ok v

/-- Rust `str::parse::<f64>` on the numeral strings the lexer builds
(shape `D+ ('.' D*)? ('e' sign? D*)?`, or starting `0.` for a leading-dot
float), computed exactly.  Parsing fails exactly when an exponent marker is
present with no digits after the optional sign (e.g. `1e`, `1e+`), the one
failure mode reachable from the lexer's numeral builder. -/
def parseF64 (s : List Char) : Except String Frac :=
  let (ip, r1) := spanDigits s
  let (fp, r2) :=
    match r1 with
    | '.' :: r => spanDigits r
    | _ => ([], r1)
  match r2 with
  | 'e' :: r3 =>
    let (sgn, r4) :=
      match r3 with
      | '+' :: r => ((1 : Int), r)
      | '-' :: r => ((-1 : Int), r)
      | _ => ((1 : Int), r3)
    let (ed, _) := spanDigits r4
    if ed = [] then .error "Invalid float literal"
    else
      let m : Int := digitsToNat (ip ++ fp)
      let flen := fp.length
      let e := digitsToNat ed
      if sgn ≥ 0 then .ok ⟨m * 10 ^ e, 10 ^ flen⟩
      else .ok ⟨m, 10 ^ flen * 10 ^ e⟩
  | _ => .ok ⟨(digitsToNat (ip ++ fp) : Int), 10 ^ fp.length⟩

/-- Read a string literal body after the opening quote, handling the SQL
doubled-quote escape (`read_string_literal`). -/
def readStringLit : List Char → Except String (List Char × List Char)
  | '\'' :: '\'' :: rest => do
    let (s, r) ← readStringLit rest
    .ok ('\'' :: s, r)
  | '\'' :: rest => .ok ([], rest)
  | c :: rest => do
    let (s, r) ← readStringLit rest
    .ok (c :: s, r)
  | [] => .error "Unterminated string literal"

/-- Read the identifier prefix (alphanumeric, `_`, `$`) and the remainder
(`read_identifier`; the source's Unicode-alphanumeric test restricted to the
ASCII range the grammar's keywords and these claims use). -/
def readIdentifier : List Char → List Char × List Char
  | [] => ([], [])
  | c :: rest =>
    if c.isAlphanum ∨ c = '_' ∨ c = '$' then
      let (s, r) := readIdentifier rest
      (c :: s, r)
    else ([], c :: rest)

/-- Case-insensitive keyword recognition (`keyword_or_identifier`). -/
def keywordOrIdentifier (s : List Char) : Token :=
  let up := s.map Char.toUpper
  if up = "AND".data then .kwAnd
  else if up = "OR".data then .kwOr
  else if up = "NOT".data then .kwNot
  else if up = "BETWEEN".data then .kwBetween
  else if up = "LIKE".data then .kwLike
  else if up = "ESCAPE".data then .kwEscape
  else if up = "IN".data then .kwIn
  else if up = "IS".data then .kwIs
  else if up = "TRUE".data then .kwTrue
  else if up = "FALSE".data then .kwFalse
  else if up = "NULL".data then .kwNull
  else .ident ⟨s⟩

/-- Read a hexadecimal literal after `0x`/`0X` (`read_hex_literal`). -/
def readHexLiteral (l : List Char) : Except String (Token × List Char) := do
  let (hs, r) := spanHexDigits l
  if hs = [] then .error "Invalid hexadecimal literal: no digits after 0x"
  else
    let v ← parseHexI64 hs
    .ok (.intLit v, r)

/-- Read an octal literal starting at the leading `0` (`read_octal_literal`). -/
def readOctalLiteral (l : List Char) : Except String (Token × List Char) := do
  let (os, r) := spanOctalDigits l
  let v ← parseOctalI64 os
  .ok (.intLit v, r)

/-- Read a decimal, float, hex, octal or `l`/`L`-suffixed numeral starting
at a digit (`read_number`).  The numeral string is assembled exactly as the
source assembles `num_str`, then handed to the `parse` model. -/
def readNumber (l : List Char) : Except String (Token × List Char) :=
  match l with
  | '0' :: 'x' :: rest => readHexLiteral rest
  | '0' :: 'X' :: rest => readHexLiteral rest
  | _ =>
    if l.head? = some '0' ∧ (l.drop 1).head?.elim false Char.isDigit then
      readOctalLiteral l
    else
      let (ip, r1) := spanDigits l
      -- decimal point taken only when followed by a digit or exponent marker
      let (isF1, mid, r2) :=
        match r1 with
        | '.' :: r =>
          if (r.head?.elim false fun ch => ch.isDigit ∨ ch = 'e' ∨ ch = 'E') then
            let (fp, r') := spanDigits r
            (true, '.' :: fp, r')
          else (false, [], r1)
        | _ => (false, [], r1)
      -- exponent marker (always recorded as lowercase 'e', as in the source)
      let (isF2, expPart, r3) :=
        match r2 with
        | 'e' :: r =>
          (true, 'e' ::
            (match r with
             | '+' :: _ => ['+'] ++ (spanDigits (r.drop 1)).1
             | '-' :: _ => ['-'] ++ (spanDigits (r.drop 1)).1
             | _ => (spanDigits r).1),
           (match r with
            | '+' :: _ => (spanDigits (r.drop 1)).2
            | '-' :: _ => (spanDigits (r.drop 1)).2
            | _ => (spanDigits r).2))
        | 'E' :: r =>
          (true, 'e' ::
            (match r with
             | '+' :: _ => ['+'] ++ (spanDigits (r.drop 1)).1
             | '-' :: _ => ['-'] ++ (spanDigits (r.drop 1)).1
             | _ => (spanDigits r).1),
           (match r with
            | '+' :: _ => (spanDigits (r.drop 1)).2
            | '-' :: _ => (spanDigits (r.drop 1)).2
            | _ => (spanDigits r).2))
        | _ => (false, [], r2)
      let isFloat := isF1 ∨ isF2
      let numStr := ip ++ mid ++ expPart
      -- trailing l/L suffix on a non-float numeral: plain integer
      if (r3.head? = some 'l' ∨ r3.head? = some 'L') ∧ ¬ isFloat then do
        let v ← parseI64 numStr
        .ok (.intLit v, r3.drop 1)
      else if isFloat then do
        let q ← parseF64 numStr
        .ok (.floatLit q, r3)
      else do
        let v ← parseI64 numStr
        .ok (.intLit v, r3)

/-- Read a float literal written with a leading bare dot, after the dot
(`read_float_starting_with_dot`): the numeral is `0.` ++ digits ++ exponent. -/
def readFloatDot (l : List Char) : Except String (Token × List Char) :=
  let (fp, r1) := spanDigits l
  let (expPart, r2) :=
    match r1 with
    | 'e' :: r =>
      ('e' ::
        (match r with
         | '+' :: _ => ['+'] ++ (spanDigits (r.drop 1)).1
         | '-' :: _ => ['-'] ++ (spanDigits (r.drop 1)).1
         | _ => (spanDigits r).1),
       (match r with
        | '+' :: _ => (spanDigits (r.drop 1)).2
        | '-' :: _ => (spanDigits (r.drop 1)).2
        | _ => (spanDigits r).2))
    | 'E' :: r =>
      ('e' ::
        (match r with
         | '+' :: _ => ['+'] ++ (spanDigits (r.drop 1)).1
         | '-' :: _ => ['-'] ++ (spanDigits (r.drop 1)).1
         | _ => (spanDigits r).1),
       (match r with
        | '+' :: _ => (spanDigits (r.drop 1)).2
        | '-' :: _ => (spanDigits (r.drop 1)).2
        | _ => (spanDigits r).2))
    | _ => ([], r1)
  match parseF64 ('0' :: '.' :: fp ++ expPart) with
  | .ok q => .ok (.floatLit q, r2)
  | .error e => .error e

/-- Produce one token (`next_token`): skip trivia, then dispatch on the
first remaining character exactly as the source's `match`. -/
def nextToken (fuel : Nat) (l : List Char) : Except String (Token × List Char) := do
  let l' ← skipTrivia fuel l
  match l' with
  | [] => .ok (.eof, [])
  | c :: rest =>
    if c = '(' then .ok (.lparen, rest)
    else if c = ')' then .ok (.rparen, rest)
    else if c = ',' then .ok (.comma, rest)
    else if c = '+' then .ok (.plus, rest)
    else if c = '-' then .ok (.minus, rest)
    else if c = '*' then .ok (.star, rest)
    else if c = '/' then .ok (.slash, rest)
    else if c = '%' then .ok (.percent, rest)
    else if c = '=' then .ok (.equal, rest)
    else if c = '!' then
      match rest with
      | '=' :: r => .ok (.notEqual, r)
      | _ => .error "Unexpected character"
    else if c = '<' then
      match rest with
      | '>' :: r => .ok (.notEqual, r)
      | '=' :: r => .ok (.lessOrEqual, r)
      | _ => .ok (.lessThan, rest)
    else if c = '>' then
      match rest with
      | '=' :: r => .ok (.greaterOrEqual, r)
      | _ => .ok (.greaterThan, rest)
    else if c = '\'' then do
      let (s, r) ← readStringLit rest
      .ok (.strLit ⟨s⟩, r)
    else if c = '.' then
      if rest.head?.elim false Char.isDigit then readFloatDot rest
      else .error "Unexpected character"
    else if c.isAlpha ∨ c = '_' ∨ c = '$' then
      let (s, r) := readIdentifier (c :: rest)
      .ok (keywordOrIdentifier s, r)
    else if c.isDigit then readNumber (c :: rest)
    else .error "Unexpected character"

/-- Tokenize the whole input (`tokenize`), collecting tokens up to and
including the final `eof`.  One unit of fuel per input character suffices
because every non-`eof` token consumes at least one character. -/
def tokenizeAux (fuel : Nat) (l : List Char) : Except String (List Token) :=
  match fuel with
  | 0 => .error "lexer fuel exhausted"
  | fuel + 1 => do
    let (t, r) ← nextToken (l.length + 1) l
    if t = .eof then .ok [.eof]
    else do
      let ts ← tokenizeAux fuel r
      .ok (t :: ts)

/-- Tokenize an input string. -/
def tokenize (input : String) : Except String (List Token) :=
  tokenizeAux (input.data.length + 1) input.data

/-! ## Parser (`src/parser.rs`)

The source parser holds `tokens: Vec<Token>` and an integer cursor
`position` supporting save/restore backtracking; every parsing method
mutates the cursor.  Here each function takes the token list and cursor and
returns the parsed node together with the new cursor.  Error messages keep
the source's descriptive phrase but drop the interpolated position/input
diagnostics. -/

/-- Parse errors (`ParseError`), message-carrying. -/
structure ParseError where
  message : String
deriving DecidableEq, Repr

/-- Current token: `tokens.get(position).unwrap_or(&Token::Eof)`. -/
def getTok (toks : List Token) (p : Nat) : Token := toks.getD p .eof

/-- Cursor advance (`advance`): increments only while in bounds. -/
def padv (toks : List Token) (p : Nat) : Nat :=
  if p < toks.length then p + 1 else p

/-- Expect a specific token and advance (`expect`). -/
def expectTok (toks : List Token) (expected : Token) (p : Nat) :
    Except ParseError Nat :=
  if getTok toks p = expected then .ok (padv toks p)
  else .error ⟨"Expected a different token"⟩

/-- Error used when the structural-recursion fuel runs out; unreachable with
the budget `parse` supplies on every input considered in the theorems. -/
def fuelErr : ParseError := ⟨"parser fuel exhausted"⟩

/-- Whether a literal is `NULL`. -/
def isNullLit : ValueLiteral → Bool
  | .null => true
  | _ => false

/-- Whether a literal is a Boolean. -/
def isBoolLit : ValueLiteral → Bool
  | .boolean _ => true
  | _ => false

/-- Extract a literal from a `ValueExpr`, allowing exactly one unary `-`
or `+` wrapper around a literal (`extract_literal`).  Unary minus folds the
sign into the literal (`-n` is exact here: the parser only ever feeds this
lexer-produced payloads, for which Rust's `i64` negation cannot overflow). -/
def extractLiteral : ValueExpr → Except ParseError ValueLiteral
  | .literal lit => .ok lit
  | .unaryMinus inner =>
    match inner with
    | .literal (.integer n) => .ok (.integer (-n))
    | .literal (.float q) => .ok (.float (fracNeg q))
    | .literal _ =>
      .error ⟨"Unary minus can only be applied to numeric literals in BETWEEN bounds"⟩
    | _ => .error ⟨"Complex expressions are not allowed here, only literal values"⟩
  | .unaryPlus inner =>
    match inner with
    | .literal lit => .ok lit
    | _ => .error ⟨"Complex expressions are not allowed here, only literal values"⟩
  | .variable _ => .error ⟨"Variables are not allowed here, only literal values"⟩
  | _ => .error ⟨"Complex expressions are not allowed here, only literal values"⟩

/-- Literal type name for error messages (`literal_type_name`). -/
def literalTypeName : ValueLiteral → String
  | .integer _ => "integer"
  | .float _ => "float"
  | .string _ => "string"
  | .null => "NULL"
  | .boolean _ => "boolean"

/-- BETWEEN type compatibility: both numeric or both string
(`are_between_compatible`). -/
def areBetweenCompatible : ValueLiteral → ValueLiteral → Bool
  | .integer _, .integer _ => true
  | .integer _, .float _ => true
  | .float _, .integer _ => true
  | .float _, .float _ => true
  | .string _, .string _ => true
  | _, _ => false

/-- Reject `NULL` and Boolean literals in IN lists (`validate_in_literal`). -/
def validateInLiteral (lit : ValueLiteral) : Except ParseError Unit :=
  match lit with
  | .null => .error ⟨"NULL is not allowed in IN list"⟩
  | .boolean _ => .error ⟨"Boolean literals are not allowed in IN list"⟩
  | _ => .ok ()

/-- Exact type equality for IN lists — Integer and Float may not mix
(`are_exact_same_type`). -/
def areExactSameType : ValueLiteral → ValueLiteral → Bool
  | .integer _, .integer _ => true
  | .float _, .float _ => true
  | .string _, .string _ => true
  | _, _ => false

/-- BETWEEN bound ordering check, lower ≤ upper under same-type comparison
with int/float coercion (`validate_between_bounds`). -/
def validateBetweenBounds (lower upper : ValueLiteral) : Except ParseError Unit :=
  match lower, upper with
  | .integer l, .integer u =>
    if l > u then .error ⟨"BETWEEN lower bound must be less than or equal to upper bound"⟩
    else .ok ()
  | .float l, .float u =>
    if fracLtB u l then .error ⟨"BETWEEN lower bound must be less than or equal to upper bound"⟩
    else .ok ()
  | .integer l, .float u =>
    if fracLtB u (intF l) then .error ⟨"BETWEEN lower bound must be less than or equal to upper bound"⟩
    else .ok ()
  | .float l, .integer u =>
    if fracLtB (intF u) l then .error ⟨"BETWEEN lower bound must be less than or equal to upper bound"⟩
    else .ok ()
  | .string l, .string u =>
    if strLtB u l then .error ⟨"BETWEEN lower bound must be less than or equal to upper bound"⟩
    else .ok ()
  | _, _ => .ok ()

/-- The static-validation block the source repeats verbatim in the
`BETWEEN` and `NOT BETWEEN` arms of `parse_relational_expression`: extract
both bounds as (sign-folded) literals, reject NULL and Boolean bounds,
check type compatibility and bound ordering.  `kw` is the keyword used in
the messages (`"BETWEEN"` or `"NOT BETWEEN"`). -/
def betweenChecks (kw : String) (lowerExpr upperExpr : ValueExpr) :
    Except ParseError Unit := do
  let lowerLit ← extractLiteral lowerExpr
  let upperLit ← extractLiteral upperExpr
  if isNullLit lowerLit then
    .error ⟨"NULL is not allowed as lower bound in " ++ kw⟩
  else if isNullLit upperLit then
    .error ⟨"NULL is not allowed as upper bound in " ++ kw⟩
  else if isBoolLit lowerLit then
    .error ⟨"Boolean literals are not allowed as lower bound in " ++ kw⟩
  else if isBoolLit upperLit then
    .error ⟨"Boolean literals are not allowed as upper bound in " ++ kw⟩
  else if ¬ areBetweenCompatible lowerLit upperLit then
    .error ⟨kw ++ " bounds must be both numeric or both string"⟩
  else validateBetweenBounds lowerLit upperLit

/-- Expect a string-literal token and advance (`expect_string_literal`). -/
def expectStringLiteral (toks : List Token) (p : Nat) :
    Except ParseError (String × Nat) :=
  match getTok toks p with
  | .strLit s => .ok (s, padv toks p)
  | _ => .error ⟨"Expected string literal"⟩

/-- Expect a value literal, folding one optional leading `-` into the
literal (`expect_value_literal`). -/
def expectValueLiteral (toks : List Token) (p : Nat) :
    Except ParseError (ValueLiteral × Nat) :=
  let isNegative := getTok toks p = .minus
  let p1 := if isNegative then padv toks p else p
  match getTok toks p1 with
  | .strLit s =>
    if isNegative then .error ⟨"Cannot apply unary minus to string literal"⟩
    else .ok (.string s, padv toks p1)
  | .intLit n => .ok (.integer (if isNegative then -n else n), padv toks p1)
  | .floatLit q => .ok (.float (if isNegative then fracNeg q else q), padv toks p1)
  | .kwNull =>
    if isNegative then .error ⟨"Cannot apply unary minus to NULL"⟩
    else .ok (.null, padv toks p1)
  | .kwTrue =>
    if isNegative then .error ⟨"Cannot apply unary minus to boolean"⟩
    else .ok (.boolean true, padv toks p1)
  | .kwFalse =>
    if isNegative then .error ⟨"Cannot apply unary minus to boolean"⟩
    else .ok (.boolean false, padv toks p1)
  | _ => .error ⟨"Expected literal value"⟩

/-- The comma-separated tail of an IN list (the `while` loop in
`parse_string_list`), carrying the first element for the exact-type check. -/
def inListLoop (toks : List Token) (fuel : Nat) (first : ValueLiteral)
    (values : List ValueLiteral) (p : Nat) :
    Except ParseError (List ValueLiteral × Nat) :=
  if getTok toks p = .comma then
    match fuel with
    | 0 => .error fuelErr
    | fuel + 1 => do
      let (next, p1) ← expectValueLiteral toks (padv toks p)
      let _ ← validateInLiteral next
      if ¬ areExactSameType first next then
        .error ⟨"IN list values must all be the same type"⟩
      else inListLoop toks fuel first (values ++ [next]) p1
  else do
    let p1 ← expectTok toks .rparen p
    .ok (values, p1)

/-- Parse the parenthesized literal list of IN / NOT IN with strict
type checking (`parse_string_list`): at least one literal is required
immediately after `(`. -/
def parseStringList (toks : List Token) (fuel : Nat) (p : Nat) :
    Except ParseError (List ValueLiteral × Nat) := do
  let p1 ← expectTok toks .lparen p
  let (first, p2) ← expectValueLiteral toks p1
  let _ ← validateInLiteral first
  inListLoop toks fuel first [first] p2

/-- Relational-operator lookahead used for identifier disambiguation
(`is_relational_operator_ahead`), peeking at `position + 1`. -/
def isRelationalOperatorAhead (toks : List Token) (p : Nat) : Bool :=
  match getTok toks (p + 1) with
  | .equal | .notEqual | .greaterThan | .greaterOrEqual | .lessThan
  | .lessOrEqual | .kwLike | .kwBetween | .kwIn | .kwIs | .kwNot => true
  | _ => false

/-- Arithmetic-operator lookahead (`is_arithmetic_operator_ahead`). -/
def isArithmeticOperatorAhead (toks : List Token) (p : Nat) : Bool :=
  match getTok toks (p + 1) with
  | .plus | .minus | .star | .slash | .percent => true
  | _ => false

/-! The value-expression layer (`parse_value_expression` through
`parse_value_primary`).  The `while` loops become the `…Loop` functions. -/

mutual

/-- ValueExpression = AddExpression (`parse_value_expression`). -/
def parseValueExpression (toks : List Token) (fuel : Nat) (p : Nat) :
    Except ParseError (ValueExpr × Nat) :=
  match fuel with
  | 0 => .error fuelErr
  | fuel + 1 => parseAddExpression toks fuel p

termination_by structural fuel

/-- AddExpression = MultExpression { (+|-) MultExpression }
(`parse_add_expression`). -/
def parseAddExpression (toks : List Token) (fuel : Nat) (p : Nat) :
    Except ParseError (ValueExpr × Nat) :=
  match fuel with
  | 0 => .error fuelErr
  | fuel + 1 => do
    let (left, p1) ← parseMultExpression toks fuel p
    parseAddLoop toks fuel left p1

termination_by structural fuel

/-- The `loop` inside `parse_add_expression` (its `match` on the current
token written as an equality chain). -/
def parseAddLoop (toks : List Token) (fuel : Nat) (left : ValueExpr) (p : Nat) :
    Except ParseError (ValueExpr × Nat) :=
  if getTok toks p = .plus then
    match fuel with
    | 0 => .error fuelErr
    | fuel + 1 => do
      let (right, p1) ← parseMultExpression toks fuel (padv toks p)
      parseAddLoop toks fuel (.add left right) p1
  else if getTok toks p = .minus then
    match fuel with
    | 0 => .error fuelErr
    | fuel + 1 => do
      let (right, p1) ← parseMultExpression toks fuel (padv toks p)
      parseAddLoop toks fuel (.subtract left right) p1
  else .ok (left, p)

termination_by structural fuel

/-- MultExpression = UnaryValueExpression { (*|/|%) UnaryValueExpression }
(`parse_mult_expression`). -/
def parseMultExpression (toks : List Token) (fuel : Nat) (p : Nat) :
    Except ParseError (ValueExpr × Nat) :=
  match fuel with
  | 0 => .error fuelErr
  | fuel + 1 => do
    let (left, p1) ← parseUnaryValueExpression toks fuel p
    parseMultLoop toks fuel left p1

termination_by structural fuel

/-- The `loop` inside `parse_mult_expression` (its `match` on the current
token written as an equality chain). -/
def parseMultLoop (toks : List Token) (fuel : Nat) (left : ValueExpr) (p : Nat) :
    Except ParseError (ValueExpr × Nat) :=
  if getTok toks p = .star then
    match fuel with
    | 0 => .error fuelErr
    | fuel + 1 => do
      let (right, p1) ← parseUnaryValueExpression toks fuel (padv toks p)
      parseMultLoop toks fuel (.multiply left right) p1
  else if getTok toks p = .slash then
    match fuel with
    | 0 => .error fuelErr
    | fuel + 1 => do
      let (right, p1) ← parseUnaryValueExpression toks fuel (padv toks p)
      parseMultLoop toks fuel (.divide left right) p1
  else if getTok toks p = .percent then
    match fuel with
    | 0 => .error fuelErr
    | fuel + 1 => do
      let (right, p1) ← parseUnaryValueExpression toks fuel (padv toks p)
      parseMultLoop toks fuel (.modulo left right) p1
  else .ok (left, p)

termination_by structural fuel

/-- UnaryValueExpression = (+|-) UnaryValueExpression | ValuePrimary
(`parse_unary_value_expression`). -/
def parseUnaryValueExpression (toks : List Token) (fuel : Nat) (p : Nat) :
    Except ParseError (ValueExpr × Nat) :=
  match fuel with
  | 0 => .error fuelErr
  | fuel + 1 =>
    match getTok toks p with
    | .plus => do
      let (e, p1) ← parseUnaryValueExpression toks fuel (padv toks p)
      .ok (.unaryPlus e, p1)
    | .minus => do
      let (e, p1) ← parseUnaryValueExpression toks fuel (padv toks p)
      .ok (.unaryMinus e, p1)
    | _ => parseValuePrimary toks fuel p

termination_by structural fuel

/-- ValuePrimary = literal | identifier | ( ValueExpression )
(`parse_value_primary`). -/
def parseValuePrimary (toks : List Token) (fuel : Nat) (p : Nat) :
    Except ParseError (ValueExpr × Nat) :=
  match fuel with
  | 0 => .error fuelErr
  | fuel + 1 =>
    match getTok toks p with
    | .intLit n => .ok (.literal (.integer n), padv toks p)
    | .floatLit q => .ok (.literal (.float q), padv toks p)
    | .strLit s => .ok (.literal (.string s), padv toks p)
    | .kwNull => .ok (.literal .null, padv toks p)
    | .kwTrue => .ok (.literal (.boolean true), padv toks p)
    | .kwFalse => .ok (.literal (.boolean false), padv toks p)
    | .ident name => .ok (.variable name, padv toks p)
    | .lparen => do
      let (e, p1) ← parseValueExpression toks fuel (padv toks p)
      let p2 ← expectTok toks .rparen p1
      .ok (e, p2)
    | _ => .error ⟨"Expected value expression"⟩

termination_by structural fuel
end

/-! The boolean / relational layer (`parse_boolean_expression` through
`parse_relational_expression`), including the backtracking `(`
disambiguation in `parse_boolean_term`. -/

mutual

/-- BooleanExpression = BooleanOrExpression (`parse_boolean_expression`). -/
def parseBooleanExpression (toks : List Token) (fuel : Nat) (p : Nat) :
    Except ParseError (BooleanExpr × Nat) :=
  match fuel with
  | 0 => .error fuelErr
  | fuel + 1 => parseBooleanOrExpression toks fuel p

termination_by structural fuel

/-- BooleanOrExpression = BooleanAndExpression { OR BooleanAndExpression }
(`parse_boolean_or_expression`). -/
def parseBooleanOrExpression (toks : List Token) (fuel : Nat) (p : Nat) :
    Except ParseError (BooleanExpr × Nat) :=
  match fuel with
  | 0 => .error fuelErr
  | fuel + 1 => do
    let (left, p1) ← parseBooleanAndExpression toks fuel p
    parseOrLoop toks fuel left p1

termination_by structural fuel

/-- The `while current == OR` loop in `parse_boolean_or_expression`. -/
def parseOrLoop (toks : List Token) (fuel : Nat) (left : BooleanExpr) (p : Nat) :
    Except ParseError (BooleanExpr × Nat) :=
  if getTok toks p = .kwOr then
    match fuel with
    | 0 => .error fuelErr
    | fuel + 1 => do
      let (right, p1) ← parseBooleanAndExpression toks fuel (padv toks p)
      parseOrLoop toks fuel (.or left right) p1
  else .ok (left, p)

termination_by structural fuel

/-- BooleanAndExpression = BooleanTerm { AND BooleanTerm }
(`parse_boolean_and_expression`). -/
def parseBooleanAndExpression (toks : List Token) (fuel : Nat) (p : Nat) :
    Except ParseError (BooleanExpr × Nat) :=
  match fuel with
  | 0 => .error fuelErr
  | fuel + 1 => do
    let (left, p1) ← parseBooleanTerm toks fuel p
    parseAndLoop toks fuel left p1

termination_by structural fuel

/-- The `while current == AND` loop in `parse_boolean_and_expression`. -/
def parseAndLoop (toks : List Token) (fuel : Nat) (left : BooleanExpr) (p : Nat) :
    Except ParseError (BooleanExpr × Nat) :=
  if getTok toks p = .kwAnd then
    match fuel with
    | 0 => .error fuelErr
    | fuel + 1 => do
      let (right, p1) ← parseBooleanTerm toks fuel (padv toks p)
      parseAndLoop toks fuel (.and left right) p1
  else .ok (left, p)

termination_by structural fuel

/-- BooleanTerm (`parse_boolean_term`): NOT, the backtracking `(`
disambiguation, boolean literals, the identifier lookahead, or the
relational fallback. -/
def parseBooleanTerm (toks : List Token) (fuel : Nat) (p : Nat) :
    Except ParseError (BooleanExpr × Nat) :=
  match fuel with
  | 0 => .error fuelErr
  | fuel + 1 =>
    match getTok toks p with
    | .kwNot => do
      let (e, p1) ← parseBooleanTerm toks fuel (padv toks p)
      .ok (.not e, p1)
    | .lparen =>
      -- consume '(' and save the cursor; try a full boolean parse, and on
      -- failure (or a missing ')') rewind to just before '(' and re-parse
      -- the whole term as a relational expression
      let saved := padv toks p
      (match parseBooleanExpression toks fuel saved with
       | .ok (e, p1) =>
         if getTok toks p1 = .rparen then .ok (e, padv toks p1)
         else do
           let (rel, p2) ← parseRelationalExpression toks fuel (saved - 1)
           .ok (.relational rel, p2)
       | .error _ => do
         let (rel, p2) ← parseRelationalExpression toks fuel (saved - 1)
         .ok (.relational rel, p2))
    | .kwTrue => .ok (.literal true, padv toks p)
    | .kwFalse => .ok (.literal false, padv toks p)
    | .ident name =>
      if isRelationalOperatorAhead toks p ∨ isArithmeticOperatorAhead toks p then do
        let (rel, p1) ← parseRelationalExpression toks fuel p
        .ok (.relational rel, p1)
      else .ok (.variable name, padv toks p)
    | _ => do
      let (rel, p1) ← parseRelationalExpression toks fuel p
      .ok (.relational rel, p1)

termination_by structural fuel

/-- RelationalExpression (`parse_relational_expression`): a value
expression followed by exactly one relational form. -/
def parseRelationalExpression (toks : List Token) (fuel : Nat) (p : Nat) :
    Except ParseError (RelationalExpr × Nat) :=
  match fuel with
  | 0 => .error fuelErr
  | fuel + 1 => do
    let (left, p1) ← parseValueExpression toks fuel p
    match getTok toks p1 with
    | .equal => do
      let (right, p2) ← parseValueExpression toks fuel (padv toks p1)
      .ok (.equality left .equal right, p2)
    | .notEqual => do
      let (right, p2) ← parseValueExpression toks fuel (padv toks p1)
      .ok (.equality left .notEqual right, p2)
    | .greaterThan => do
      let (right, p2) ← parseValueExpression toks fuel (padv toks p1)
      .ok (.comparison left .greaterThan right, p2)
    | .greaterOrEqual => do
      let (right, p2) ← parseValueExpression toks fuel (padv toks p1)
      .ok (.comparison left .greaterOrEqual right, p2)
    | .lessThan => do
      let (right, p2) ← parseValueExpression toks fuel (padv toks p1)
      .ok (.comparison left .lessThan right, p2)
    | .lessOrEqual => do
      let (right, p2) ← parseValueExpression toks fuel (padv toks p1)
      .ok (.comparison left .lessOrEqual right, p2)
    | .kwLike => do
      let (pat, p2) ← expectStringLiteral toks (padv toks p1)
      if getTok toks p2 = .kwEscape then do
        let (esc, p3) ← expectStringLiteral toks (padv toks p2)
        .ok (.like left pat (some esc) false, p3)
      else .ok (.like left pat none false, p2)
    | .kwNot =>
      (match getTok toks (padv toks p1) with
       | .kwLike => do
         let (pat, p2) ← expectStringLiteral toks (padv toks (padv toks p1))
         if getTok toks p2 = .kwEscape then do
           let (esc, p3) ← expectStringLiteral toks (padv toks p2)
           .ok (.like left pat (some esc) true, p3)
         else .ok (.like left pat none true, p2)
       | .kwBetween => do
         let (lowerExpr, p2) ← parseValueExpression toks fuel (padv toks (padv toks p1))
         let p3 ← expectTok toks .kwAnd p2
         let (upperExpr, p4) ← parseValueExpression toks fuel p3
         let _ ← betweenChecks "NOT BETWEEN" lowerExpr upperExpr
         .ok (.between left lowerExpr upperExpr true, p4)
       | .kwIn => do
         let (values, p2) ← parseStringList toks fuel (padv toks (padv toks p1))
         .ok (.inList left values true, p2)
       | _ => .error ⟨"Expected LIKE, BETWEEN, or IN after NOT"⟩)
    | .kwBetween => do
      let (lowerExpr, p2) ← parseValueExpression toks fuel (padv toks p1)
      let p3 ← expectTok toks .kwAnd p2
      let (upperExpr, p4) ← parseValueExpression toks fuel p3
      let _ ← betweenChecks "BETWEEN" lowerExpr upperExpr
      .ok (.between left lowerExpr upperExpr false, p4)
    | .kwIn => do
      let (values, p2) ← parseStringList toks fuel (padv toks p1)
      .ok (.inList left values false, p2)
    | .kwIs => do
      let p2 := padv toks p1
      let (negated, p3) :=
        if getTok toks p2 = .kwNot then (true, padv toks p2) else (false, p2)
      let p4 ← expectTok toks .kwNull p3
      .ok (.isNull left negated, p4)
    | _ => .error ⟨"Expected relational operator"⟩

end

/-- Fuel budget handed to the recursive-descent entry point: far more than
the parser can consume on any input appearing in these theorems (each
recursive call consumes one unit; non-pathological inputs need only a small
constant per token). -/
def parseFuel (toks : List Token) : Nat := toks.length * 16 + 64

/-- Parse a token stream produced by the lexer (`Parser::parse`): a full
boolean expression, then the cursor must sit on `Eof`. -/
def parseTokens (toks : List Token) : Except ParseError BooleanExpr := do
  let (e, p) ← parseBooleanExpression toks (parseFuel toks) 0
  if getTok toks p = .eof then .ok e
  else .error ⟨"Unexpected token after complete expression"⟩

/-- The public `parse` entry point (`parser::parse`): tokenize, then parse;
lex errors become `ParseError`s. -/
def parse (input : String) : Except ParseError BooleanExpr :=
  match tokenize input with
  | .error e => .error ⟨e⟩
  | .ok toks => parseTokens toks

/-! ## Evaluator (`src/evaluator.rs`) -/

/-- Caller-supplied binding values (`RuntimeValue`). -/
inductive RuntimeValue where
  | integer (n : Int)
  | float (q : Frac)
  | string (s : String)
  | boolean (b : Bool)
  | null
deriving DecidableEq, Repr

/-- Structured evaluation errors (`EvalError`). -/
inductive EvalError where
  | evalParseError (msg : String)
  | unboundVariable (name : String)
  | typeError (operation expected actual context : String)
  | nullInOperation (operation context : String)
  | divisionByZero (expression : String)
  | invalidLiteral (literal literalType error : String)
deriving DecidableEq, Repr

/-- The unified internal value shape (`SubValue`). -/
inductive SubValue where
  | integer (n : Int)
  | float (q : Frac)
  | string (s : String)
  | boolean (b : Bool)
  | null
deriving DecidableEq, Repr

namespace SubValue

/-- Conversion from a caller binding (`SubValue::from_runtime`). -/
def fromRuntime : RuntimeValue → SubValue
  | .integer i => .integer i
  | .float f => .float f
  | .string s => .string s
  | .boolean b => .boolean b
  | .null => .null

/-- Conversion from an AST literal (`SubValue::from_literal`). -/
def fromLiteral : ValueLiteral → SubValue
  | .integer i => .integer i
  | .float f => .float f
  | .string s => .string s
  | .boolean b => .boolean b
  | .null => .null

/-- Type name used in error messages (`SubValue::type_name`). -/
def typeName : SubValue → String
  | .integer _ => "integer"
  | .float _ => "float"
  | .string _ => "string"
  | .boolean _ => "boolean"
  | .null => "NULL"

/-- Nullity test (`SubValue::is_null`). -/
def isNullB : SubValue → Bool
  | .null => true
  | _ => false

end SubValue

/-- Type name of a binding value (`runtime_type_name`). -/
def runtimeTypeName : RuntimeValue → String
  | .integer _ => "integer"
  | .float _ => "float"
  | .string _ => "string"
  | .boolean _ => "boolean"
  | .null => "NULL"

/-- The caller's variable bindings: `HashMap<String, RuntimeValue>` as an
association list consulted with `List.lookup`. -/
abbrev Bindings := List (String × RuntimeValue)

/-- Debug rendering of an equality operator, `format!("{:?}", op)`. -/
def eqOpDebug : EqualityOp → String
  | .equal => "Equal"
  | .notEqual => "NotEqual"

/-- Debug rendering of a comparison operator, `format!("{:?}", op)`. -/
def cmpOpDebug : ComparisonOp → String
  | .greaterThan => "GreaterThan"
  | .greaterOrEqual => "GreaterOrEqual"
  | .lessThan => "LessThan"
  | .lessOrEqual => "LessOrEqual"

/-- `apply_comparison_op` at `i64`. -/
def applyCmpInt (a b : Int) : ComparisonOp → Bool
  | .greaterThan => decide (a > b)
  | .greaterOrEqual => decide (a ≥ b)
  | .lessThan => decide (a < b)
  | .lessOrEqual => decide (a ≤ b)

/-- `apply_comparison_op` at `f64`. -/
def applyCmpFrac (a b : Frac) : ComparisonOp → Bool
  | .greaterThan => fracLtB b a
  | .greaterOrEqual => fracLeB b a
  | .lessThan => fracLtB a b
  | .lessOrEqual => fracLeB a b

/-- `apply_comparison_op` at `String` (lexicographic). -/
def applyCmpStr (a b : String) : ComparisonOp → Bool
  | .greaterThan => strLtB b a
  | .greaterOrEqual => strLeB b a
  | .lessThan => strLtB a b
  | .lessOrEqual => strLeB a b

/-! The arithmetic helpers.  The source's `eval_arithmetic_*` methods first
evaluate both operand subtrees and then dispatch on the value pair; here the
evaluation step lives in `evalValue` and the helpers receive the two already
evaluated `SubValue`s — the same computation split at the seam between
operand evaluation and value dispatch. -/

/-- `eval_arithmetic_add`, after operand evaluation. -/
def arithAdd (left right : SubValue) : Except EvalError SubValue :=
  if left.isNullB ∨ right.isNullB then
    .error (.nullInOperation "addition" "cannot add NULL values")
  else
    match left, right with
    | .integer a, .integer b => .ok (.integer (wrap64 (a + b)))
    | .float a, .float b => .ok (.float (fracAdd a b))
    | .integer a, .float b => .ok (.float (fracAdd (intF a) b))
    | .float a, .integer b => .ok (.float (fracAdd a (intF b)))
    | _, _ => .error (.typeError "addition" "numeric types"
        (left.typeName ++ " and " ++ right.typeName) "arithmetic operation")

/-- `eval_arithmetic_subtract`, after operand evaluation. -/
def arithSubtract (left right : SubValue) : Except EvalError SubValue :=
  if left.isNullB ∨ right.isNullB then
    .error (.nullInOperation "subtraction" "cannot subtract NULL values")
  else
    match left, right with
    | .integer a, .integer b => .ok (.integer (wrap64 (a - b)))
    | .float a, .float b => .ok (.float (fracSub a b))
    | .integer a, .float b => .ok (.float (fracSub (intF a) b))
    | .float a, .integer b => .ok (.float (fracSub a (intF b)))
    | _, _ => .error (.typeError "subtraction" "numeric types"
        (left.typeName ++ " and " ++ right.typeName) "arithmetic operation")

/-- `eval_arithmetic_multiply`, after operand evaluation. -/
def arithMultiply (left right : SubValue) : Except EvalError SubValue :=
  if left.isNullB ∨ right.isNullB then
    .error (.nullInOperation "multiplication" "cannot multiply NULL values")
  else
    match left, right with
    | .integer a, .integer b => .ok (.integer (wrap64 (a * b)))
    | .float a, .float b => .ok (.float (fracMul a b))
    | .integer a, .float b => .ok (.float (fracMul (intF a) b))
    | .float a, .integer b => .ok (.float (fracMul a (intF b)))
    | _, _ => .error (.typeError "multiplication" "numeric types"
        (left.typeName ++ " and " ++ right.typeName) "arithmetic operation")

/-- `eval_arithmetic_divide`, after operand evaluation: both operands are
coerced to float, a zero divisor is a `DivisionByZero` naming the full
input, and the result is always a float. -/
def arithDivide (input : String) (left right : SubValue) : Except EvalError SubValue := do
  if left.isNullB ∨ right.isNullB then
    .error (.nullInOperation "division" "cannot divide NULL values")
  else do
    let leftFloat ←
      match left with
      | .integer i => Except.ok (intF i)
      | .float f => Except.ok f
      | _ => .error (.typeError "division" "numeric" left.typeName "left operand")
    let rightFloat ←
      match right with
      | .integer i => Except.ok (intF i)
      | .float f => Except.ok f
      | _ => .error (.typeError "division" "numeric" right.typeName "right operand")
    if fracEqB rightFloat fracZero then .error (.divisionByZero input)
    else .ok (.float (fracDiv leftFloat rightFloat))

/-- `eval_arithmetic_modulo`, after operand evaluation. -/
def arithModulo (input : String) (left right : SubValue) : Except EvalError SubValue :=
  if left.isNullB ∨ right.isNullB then
    .error (.nullInOperation "modulo" "cannot modulo NULL values")
  else
    match left, right with
    | .integer a, .integer b =>
      if b = 0 then .error (.divisionByZero input)
      else .ok (.integer (imod64 a b))
    | .float a, .float b =>
      if fracEqB b fracZero then .error (.divisionByZero input)
      else .ok (.float (fracRem a b))
    | .integer a, .float b =>
      if fracEqB b fracZero then .error (.divisionByZero input)
      else .ok (.float (fracRem (intF a) b))
    | .float a, .integer b =>
      if b = 0 then .error (.divisionByZero input)
      else .ok (.float (fracRem a (intF b)))
    | _, _ => .error (.typeError "modulo" "numeric types"
        (left.typeName ++ " and " ++ right.typeName) "arithmetic operation")

/-- Evaluate a value expression to a `SubValue` (`eval_value`). -/
def evalValue (vm : Bindings) (input : String) : ValueExpr → Except EvalError SubValue
  | .literal lit => .ok (SubValue.fromLiteral lit)
  | .variable name =>
    match List.lookup name vm with
    | some rv => .ok (SubValue.fromRuntime rv)
    | none => .error (.unboundVariable name)
  | .add l r => do arithAdd (← evalValue vm input l) (← evalValue vm input r)
  | .subtract l r => do arithSubtract (← evalValue vm input l) (← evalValue vm input r)
  | .multiply l r => do arithMultiply (← evalValue vm input l) (← evalValue vm input r)
  | .divide l r => do arithDivide input (← evalValue vm input l) (← evalValue vm input r)
  | .modulo l r => do arithModulo input (← evalValue vm input l) (← evalValue vm input r)
  | .unaryPlus e => do
    let val ← evalValue vm input e
    match val with
    | .integer i => .ok (.integer i)
    | .float f => .ok (.float f)
    | .null => .error (.nullInOperation "unary plus" "cannot apply unary plus to NULL")
    | _ => .error (.typeError "unary plus" "numeric" val.typeName "operand")
  | .unaryMinus e => do
    let val ← evalValue vm input e
    match val with
    | .integer i => .ok (.integer (wrap64 (-i)))
    | .float f => .ok (.float (fracNeg f))
    | .null => .error (.nullInOperation "unary minus" "cannot apply unary minus to NULL")
    | _ => .error (.typeError "unary minus" "numeric" val.typeName "operand")

/-- Numeric coercion used by the BETWEEN fallback (`to_numeric`). -/
def toNumeric (val : SubValue) : Except EvalError Frac :=
  match val with
  | .integer i => .ok (intF i)
  | .float f => .ok f
  | _ => .error (.typeError "numeric comparison" "numeric" val.typeName "operand")

/-- IN type compatibility between the tested value and the first list
element: exact match, plus permissive int/float mixing
(`are_types_compatible_for_in`). -/
def areTypesCompatibleForIn : SubValue → SubValue → Bool
  | .integer _, .integer _ => true
  | .float _, .float _ => true
  | .string _, .string _ => true
  | .boolean _, .boolean _ => true
  | .null, .null => true
  | .integer _, .float _ => true
  | .float _, .integer _ => true
  | _, _ => false

/-- One membership test of the IN scan (the `matches` match inside the
`for` loop of `eval_in`). -/
def inMatches (val listVal : SubValue) : Bool :=
  match val, listVal with
  | .integer a, .integer b => decide (a = b)
  | .float a, .float b => fracEqB a b
  | .integer a, .float b => fracEqB (intF a) b
  | .float a, .integer b => fracEqB a (intF b)
  | .string a, .string b => decide (a = b)
  | .boolean a, .boolean b => a == b
  | .null, .null => true
  | _, _ => false

/-- The IN membership scan (the `for` loop of `eval_in`, which breaks at
the first match). -/
def inScan (val : SubValue) : List ValueLiteral → Bool
  | [] => false
  | lit :: rest =>
    if inMatches val (SubValue.fromLiteral lit) then true
    else inScan val rest

/-! LIKE pattern matching (`match_pattern`).  The source translates the SQL
pattern into an anchored regex string `^…$`: `%` → `.*`, `_` → `.`, an
escaped or ordinary character → its `regex::escape`d literal.  Here the
translation produces a list of atoms, and `atomsMatch` gives the anchored
match semantics of the resulting regex — in particular `.` and `.*` in the
regex crate do **not** match a newline unless the `s` flag is set, so the
wildcard atoms refuse `'\n'` while literal atoms match any character. -/

/-- One atom of the compiled pattern: `.*`, `.`, or an escaped literal. -/
inductive LikeAtom where
  | anyStr
  | anyChar
  | lit (c : Char)
deriving DecidableEq, Repr

/-- Translate the SQL pattern to atoms (the `while let` loop of
`match_pattern`): an escape character makes the following character
literal (a trailing escape character is dropped), `%` and `_` become
wildcards, everything else is literal. -/
def patternToAtoms (escapeChar : Option Char) : List Char → List LikeAtom
  | [] => []
  | c :: rest =>
    if some c = escapeChar then
      match rest with
      | next :: rest1 => .lit next :: patternToAtoms escapeChar rest1
      | [] => []
    else if c = '%' then .anyStr :: patternToAtoms escapeChar rest
    else if c = '_' then .anyChar :: patternToAtoms escapeChar rest
    else .lit c :: patternToAtoms escapeChar rest

/-- Anchored matching of compiled atoms against the subject characters:
the `is_match` of the compiled `^…$` regex.  Fuel-driven for structural
recursion; every step shortens atoms or subject, so any fuel above
`ps.length + s.length` gives the true answer. -/
def atomsMatch (fuel : Nat) (ps : List LikeAtom) (s : List Char) : Bool :=
  match fuel with
  | 0 => false
  | fuel + 1 =>
    match ps, s with
    | [], [] => true
    | [], _ :: _ => false
    | .lit c :: ps1, d :: ds => c == d && atomsMatch fuel ps1 ds
    | .lit _ :: _, [] => false
    | .anyChar :: ps1, d :: ds => decide (d ≠ '\n') && atomsMatch fuel ps1 ds
    | .anyChar :: _, [] => false
    | .anyStr :: ps1, t =>
      atomsMatch fuel ps1 t ||
        (match t with
         | [] => false
         | d :: ds => decide (d ≠ '\n') && atomsMatch fuel (.anyStr :: ps1) ds)

/-- `match_pattern`: compile the pattern and run the anchored match.  The
compiled regex consists only of `^`, `$`, `.*`, `.` and escaped literals,
so `Regex::new` cannot fail and the result is always `ok`. -/
def matchPattern (s : String) (pattern : String) (escape : Option String) :
    Except EvalError Bool :=
  let escapeChar := escape.bind fun e => e.data.head?
  let atoms := patternToAtoms escapeChar pattern.data
  .ok (atomsMatch (atoms.length + s.data.length + 1) atoms s.data)

/-- `eval_like`: the left operand must be a non-null string. -/
def evalLike (vm : Bindings) (input : String) (expr : ValueExpr)
    (pattern : String) (escape : Option String) (negated : Bool) :
    Except EvalError Bool := do
  let val ← evalValue vm input expr
  match val with
  | .string s => do
    let m ← matchPattern s pattern escape
    .ok (if negated then !m else m)
  | .null => .error (.nullInOperation "LIKE" "cannot apply LIKE to NULL")
  | _ => .error (.typeError "LIKE" "string" val.typeName "left operand")

/-- `eval_equality`. -/
def evalEquality (vm : Bindings) (input : String) (left right : ValueExpr)
    (op : EqualityOp) : Except EvalError Bool := do
  let lVal ← evalValue vm input left
  let rVal ← evalValue vm input right
  if lVal.isNullB ∨ rVal.isNullB then
    .error (.nullInOperation (eqOpDebug op)
      "cannot compare NULL values (use IS NULL instead)")
  else do
    let equal ←
      match lVal, rVal with
      | .integer a, .integer b => Except.ok (decide (a = b))
      | .float a, .float b => Except.ok (fracEqB a b)
      | .integer a, .float b => Except.ok (fracEqB (intF a) b)
      | .float a, .integer b => Except.ok (fracEqB a (intF b))
      | .string a, .string b => Except.ok (decide (a = b))
      | .boolean a, .boolean b => Except.ok (a == b)
      | _, _ => .error (.typeError (eqOpDebug op) "matching types"
          (lVal.typeName ++ " vs " ++ rVal.typeName) "equality comparison")
    match op with
    | .equal => .ok equal
    | .notEqual => .ok (!equal)

/-- `eval_comparison`. -/
def evalComparison (vm : Bindings) (input : String) (left right : ValueExpr)
    (op : ComparisonOp) : Except EvalError Bool := do
  let lVal ← evalValue vm input left
  let rVal ← evalValue vm input right
  if lVal.isNullB ∨ rVal.isNullB then
    .error (.nullInOperation (cmpOpDebug op) "cannot compare NULL values")
  else
    match lVal, rVal with
    | .integer a, .integer b => .ok (applyCmpInt a b op)
    | .float a, .float b => .ok (applyCmpFrac a b op)
    | .integer a, .float b => .ok (applyCmpFrac (intF a) b op)
    | .float a, .integer b => .ok (applyCmpFrac a (intF b) op)
    | .string a, .string b => .ok (applyCmpStr a b op)
    | .boolean _, _ =>
      .error (.typeError (cmpOpDebug op) "numeric or string" "boolean" "comparison operand")
    | _, .boolean _ =>
      .error (.typeError (cmpOpDebug op) "numeric or string" "boolean" "comparison operand")
    | _, _ => .error (.typeError (cmpOpDebug op) "matching types"
        (lVal.typeName ++ " vs " ++ rVal.typeName) "comparison")

/-- `eval_between`: inclusive range with a numeric-coercion fallback for
mixed numeric types. -/
def evalBetween (vm : Bindings) (input : String) (expr lower upper : ValueExpr)
    (negated : Bool) : Except EvalError Bool := do
  let val ← evalValue vm input expr
  let low ← evalValue vm input lower
  let high ← evalValue vm input upper
  if val.isNullB ∨ low.isNullB ∨ high.isNullB then
    .error (.nullInOperation "BETWEEN" "cannot use NULL in BETWEEN")
  else do
    let inRange ←
      match val, low, high with
      | .integer v, .integer l, .integer h => Except.ok (decide (v ≥ l) && decide (v ≤ h))
      | .float v, .float l, .float h => Except.ok (fracLeB l v && fracLeB v h)
      | .string v, .string l, .string h => Except.ok (strLeB l v && strLeB v h)
      | _, _, _ => do
        let vNum ← toNumeric val
        let lNum ← toNumeric low
        let hNum ← toNumeric high
        Except.ok (fracLeB lNum vNum && fracLeB vNum hNum)
    .ok (if negated then !inRange else inRange)

/-- `eval_in`: type-compatibility against the first list element, then the
short-circuiting membership scan. -/
def evalIn (vm : Bindings) (input : String) (expr : ValueExpr)
    (values : List ValueLiteral) (negated : Bool) : Except EvalError Bool := do
  let val ← evalValue vm input expr
  if val.isNullB then
    .error (.nullInOperation "IN" "cannot use NULL in IN")
  else do
    let _ ←
      match values with
      | [] => Except.ok ()
      | first :: _ =>
        let firstListVal := SubValue.fromLiteral first
        if ¬ areTypesCompatibleForIn val firstListVal then
          .error (.typeError "IN" firstListVal.typeName val.typeName
            "left operand type doesn't match list element types")
        else Except.ok ()
    let found := inScan val values
    .ok (if negated then !found else found)

/-- `eval_is_null`: test the evaluated value's nullity. -/
def evalIsNull (vm : Bindings) (input : String) (expr : ValueExpr)
    (negated : Bool) : Except EvalError Bool := do
  let val ← evalValue vm input expr
  let isNull := val.isNullB
  .ok (if negated then !isNull else isNull)

/-- `eval_relational`: dispatch to the relational forms. -/
def evalRelational (vm : Bindings) (input : String) :
    RelationalExpr → Except EvalError Bool
  | .equality left op right => evalEquality vm input left right op
  | .comparison left op right => evalComparison vm input left right op
  | .like expr pattern escape negated => evalLike vm input expr pattern escape negated
  | .between expr lower upper negated => evalBetween vm input expr lower upper negated
  | .inList expr values negated => evalIn vm input expr values negated
  | .isNull expr negated => evalIsNull vm input expr negated

/-- `eval_boolean`: boolean literals, boolean-typed variables, And/Or with
short-circuiting, Not, and relational delegation. -/
def evalBoolean (vm : Bindings) (input : String) :
    BooleanExpr → Except EvalError Bool
  | .literal b => .ok b
  | .variable name =>
    match List.lookup name vm with
    | some (.boolean b) => .ok b
    | some other => .error (.typeError "boolean variable" "boolean"
        (runtimeTypeName other) ("variable '" ++ name ++ "'"))
    | none => .error (.unboundVariable name)
  | .and l r => do
    let lv ← evalBoolean vm input l
    -- short-circuit: if left is false, the right operand is not evaluated
    if lv = false then .ok false
    else evalBoolean vm input r
  | .or l r => do
    let lv ← evalBoolean vm input l
    -- short-circuit: if left is true, the right operand is not evaluated
    if lv = true then .ok true
    else evalBoolean vm input r
  | .not e => do
    let v ← evalBoolean vm input e
    .ok (!v)
  | .relational rel => evalRelational vm input rel

/-- The public `evaluate` entry point: parse (wrapping parse failures via
the `Display` text of `ParseError`, as `From<ParseError> for EvalError`
does) and then walk the tree. -/
def evaluate (input : String) (vm : Bindings) : Except EvalError Bool :=
  match parse input with
  | .error e => .error (.evalParseError ("Parse error: " ++ e.message))
  | .ok ast => evalBoolean vm input ast

/-! ## Specification-side definitions

These definitions come from the specification's wording, not from the
source; the theorems compare them against the embedded code. -/

/-- The token rendering of a literal BETWEEN bound as it appears in source
text: a negative numeric literal is written with a leading `-` (one unary
minus in front of the unsigned literal), everything else is one token. -/
def litTokens : ValueLiteral → List Token
  | .integer n => if n < 0 then [.minus, .intLit (-n)] else [.intLit n]
  | .float q => if q.num < 0 then [.minus, .floatLit (fracNeg q)] else [.floatLit q]
  | .string s => [.strLit s]
  | .null => [.kwNull]
  | .boolean b => if b then [.kwTrue] else [.kwFalse]

/-- The specification's "lo ≤ hi under same-type comparison": numeric
bounds compared numerically with int/float coercion, string bounds
compared lexicographically. -/
def litLE : ValueLiteral → ValueLiteral → Bool
  | .integer l, .integer u => decide (l ≤ u)
  | .integer l, .float u => fracLeB (intF l) u
  | .float l, .integer u => fracLeB l (intF u)
  | .float l, .float u => fracLeB l u
  | .string l, .string u => strLeB l u
  | _, _ => false

/-- Declarative anchored LIKE-match semantics, from the specification's
wording amended with the regex crate's newline behaviour: the whole subject
is consumed (anchored at both ends); a literal atom matches exactly its
character; `_` matches exactly one non-newline character; `%` matches any
(possibly empty) sequence of non-newline characters. -/
inductive LikeMatches : List LikeAtom → List Char → Prop where
  | nil : LikeMatches [] []
  | lit (c : Char) (ps : List LikeAtom) (ds : List Char) :
      LikeMatches ps ds → LikeMatches (.lit c :: ps) (c :: ds)
  | one (d : Char) (ps : List LikeAtom) (ds : List Char) :
      d ≠ '\n' → LikeMatches ps ds → LikeMatches (.anyChar :: ps) (d :: ds)
  | many (seg : List Char) (ps : List LikeAtom) (ds : List Char) :
      (∀ c ∈ seg, c ≠ '\n') → LikeMatches ps ds →
      LikeMatches (.anyStr :: ps) (seg ++ ds)

/-! Two small observation functions on tokens, used to phrase the parse
step lemmas below. -/

/-- The value atom `parse_value_primary` produces from a single token
(`none` for the tokens that are not single-token primaries). -/
def tokenPrimary : Token → Option ValueExpr
  | .intLit n => some (.literal (.integer n))
  | .floatLit q => some (.literal (.float q))
  | .strLit s => some (.literal (.string s))
  | .kwNull => some (.literal .null)
  | .kwTrue => some (.literal (.boolean true))
  | .kwFalse => some (.literal (.boolean false))
  | .ident name => some (.variable name)
  | _ => none

/-- Whether a token terminates the additive/multiplicative loops of the
value-expression layer (it is no arithmetic operator). -/
def tokenStopsValue : Token → Bool
  | .plus | .minus | .star | .slash | .percent => false
  | _ => true

/-! ## Supporting lemmas

Reduction lemmas for the fuelled parser, used to drive the symbolic parse
traces in the claim theorems. -/

set_option maxRecDepth 8000

theorem exceptBind_assoc {ε α β γ : Type} (v : Except ε α) (f : α → Except ε β)
    (g : β → Except ε γ) : (v.bind f).bind g = v.bind (fun x => (f x).bind g) := by
  cases v <;> rfl

theorem getTok_ne_eof_lt {toks : List Token} {p : Nat} (h : getTok toks p ≠ .eof) :
    p < toks.length := by
  by_contra hge
  exact h (by unfold getTok; exact List.getD_eq_default _ _ (Nat.le_of_not_lt hge))

theorem padv_eq {toks : List Token} {p : Nat} (h : getTok toks p ≠ .eof) :
    padv toks p = p + 1 := by
  simp [padv, getTok_ne_eof_lt h]

theorem tokenStopsValue_spec {t : Token} (h : tokenStopsValue t = true) :
    t ≠ .plus ∧ t ≠ .minus ∧ t ≠ .star ∧ t ≠ .slash ∧ t ≠ .percent := by
  cases t <;> simp_all [tokenStopsValue]

theorem parseAddLoop_stop {toks : List Token} {p : Nat} (fuel : Nat) (acc : ValueExpr)
    (h1 : getTok toks p ≠ .plus) (h2 : getTok toks p ≠ .minus) :
    parseAddLoop toks fuel acc p = .ok (acc, p) := by
  rw [parseAddLoop.eq_def, if_neg h1, if_neg h2]

theorem parseMultLoop_stop {toks : List Token} {p : Nat} (fuel : Nat) (acc : ValueExpr)
    (h1 : getTok toks p ≠ .star) (h2 : getTok toks p ≠ .slash)
    (h3 : getTok toks p ≠ .percent) :
    parseMultLoop toks fuel acc p = .ok (acc, p) := by
  rw [parseMultLoop.eq_def, if_neg h1, if_neg h2, if_neg h3]

theorem parseOrLoop_stop {toks : List Token} {p : Nat} (fuel : Nat) (acc : BooleanExpr)
    (h1 : getTok toks p ≠ .kwOr) :
    parseOrLoop toks fuel acc p = .ok (acc, p) := by
  rw [parseOrLoop.eq_def, if_neg h1]

theorem parseAndLoop_stop {toks : List Token} {p : Nat} (fuel : Nat) (acc : BooleanExpr)
    (h1 : getTok toks p ≠ .kwAnd) :
    parseAndLoop toks fuel acc p = .ok (acc, p) := by
  rw [parseAndLoop.eq_def, if_neg h1]

theorem parseValuePrimary_step {toks : List Token} {p : Nat} {e₀ : ValueExpr} (fuel : Nat)
    (h : tokenPrimary (getTok toks p) = some e₀) :
    parseValuePrimary toks (fuel + 1) p = .ok (e₀, padv toks p) := by
  cases htok : getTok toks p <;> rw [htok] at h <;> simp [tokenPrimary] at h <;>
    simp [parseValuePrimary, htok, h]

/-- A value expression consisting of one single-token primary, followed by
a non-operator token, parses to just that primary. -/
theorem value_single_step {toks : List Token} {p : Nat} {e₀ : ValueExpr} (fuel : Nat)
    (h : tokenPrimary (getTok toks p) = some e₀)
    (hstop : tokenStopsValue (getTok toks (padv toks p)) = true) :
    parseValueExpression toks (fuel + 5) p = .ok (e₀, padv toks p) := by
  obtain ⟨n1, n2, n3, n4, n5⟩ := tokenStopsValue_spec hstop
  have hu : parseUnaryValueExpression toks (fuel + 2) p = parseValuePrimary toks (fuel + 1) p := by
    cases htok : getTok toks p <;> rw [htok] at h <;> simp [tokenPrimary] at h <;>
      simp [parseUnaryValueExpression, htok]
  simp [parseValueExpression, parseAddExpression, parseMultExpression, hu,
    parseValuePrimary_step fuel h, bind, Except.bind,
    parseMultLoop_stop _ _ n3 n4 n5, parseAddLoop_stop _ _ n1 n2]

/-- A value expression consisting of a unary minus on a single-token
primary, followed by a non-operator token, parses to the wrapped primary. -/
theorem value_neg_single_step {toks : List Token} {p : Nat} {e₀ : ValueExpr} (fuel : Nat)
    (hm : getTok toks p = .minus)
    (h : tokenPrimary (getTok toks (padv toks p)) = some e₀)
    (hstop : tokenStopsValue (getTok toks (padv toks (padv toks p))) = true) :
    parseValueExpression toks (fuel + 6) p = .ok (.unaryMinus e₀, padv toks (padv toks p)) := by
  obtain ⟨n1, n2, n3, n4, n5⟩ := tokenStopsValue_spec hstop
  have hu : parseUnaryValueExpression toks (fuel + 3) p
      = .ok (.unaryMinus e₀, padv toks (padv toks p)) := by
    cases htok2 : getTok toks (padv toks p) <;> rw [htok2] at h <;>
      simp [tokenPrimary] at h <;>
      simp [parseUnaryValueExpression, hm, htok2, h, parseValuePrimary, bind, Except.bind]
  simp [parseValueExpression, parseAddExpression, parseMultExpression, hu,
    bind, Except.bind,
    parseMultLoop_stop _ _ n3 n4 n5, parseAddLoop_stop _ _ n1 n2]

/-- Full parse of a token stream of the shape
`name BETWEEN (value tokens) AND (value tokens) (eof)`: the result is the
static BETWEEN validation followed by the already-determined AST. -/
theorem between_parse_template (toks : List Token) (g : Nat) (name : String)
    (lowE upE : ValueExpr) (pA pE : Nat)
    (h0 : getTok toks 0 = .ident name)
    (h1 : getTok toks 1 = .kwBetween)
    (hlow : parseValueExpression toks (g + 7) 2 = .ok (lowE, pA))
    (hand : getTok toks pA = .kwAnd)
    (hup : parseValueExpression toks (g + 7) (pA + 1) = .ok (upE, pE))
    (heof : getTok toks pE = .eof)
    (hfuel : parseFuel toks = g + 12) :
    parseTokens toks = (betweenChecks "BETWEEN" lowE upE).bind
        (fun _ => .ok (.relational (.between (.variable name) lowE upE false))) := by
  have hp0 : padv toks 0 = 1 := padv_eq (by simp [h0])
  have hp1 : padv toks 1 = 2 := padv_eq (by simp [h1])
  have hpA : padv toks pA = pA + 1 := padv_eq (by simp [hand])
  have hleft : parseValueExpression toks (g + 7) 0 = .ok (.variable name, 1) := by
    have := @value_single_step toks 0 (.variable name) (g + 2)
      (by rw [h0]; rfl) (by rw [hp0, h1]; rfl)
    rw [hp0] at this
    exact this
  have hrel : parseRelationalExpression toks (g + 8) 0
      = (betweenChecks "BETWEEN" lowE upE).bind
          (fun _ => .ok (.between (.variable name) lowE upE false, pE)) := by
    simp only [parseRelationalExpression, hleft, bind, Except.bind, h1, hp1]
    rw [hlow]
    simp only [expectTok, hand, if_pos, hpA]
    rw [hup]
  have hterm : parseBooleanTerm toks (g + 9) 0
      = (betweenChecks "BETWEEN" lowE upE).bind
          (fun _ => .ok (.relational (.between (.variable name) lowE upE false), pE)) := by
    simp only [parseBooleanTerm, h0, isRelationalOperatorAhead, h1, hrel,
      exceptBind_assoc, bind, Except.bind]
    cases betweenChecks "BETWEEN" lowE upE <;> rfl
  have hna : getTok toks pE ≠ .kwAnd := by simp [heof]
  have hno : getTok toks pE ≠ .kwOr := by simp [heof]
  simp only [parseTokens, hfuel, parseBooleanExpression, parseBooleanOrExpression,
    parseBooleanAndExpression, hterm, exceptBind_assoc, bind, Except.bind]
  cases betweenChecks "BETWEEN" lowE upE <;>
    simp only [parseAndLoop_stop _ _ hna, parseOrLoop_stop _ _ hno, heof, if_pos]

/-- Shape instance of `between_parse_template`. -/
theorem between_shape_aa (n : Int) (m : Int) :
    parseTokens [.ident "x", .kwBetween, .intLit n, .kwAnd, .intLit m, .eof]
      = (validateBetweenBounds (.integer n) (.integer m)).bind
          (fun _ => .ok (.relational (.between (.variable "x")
            (.literal (.integer n)) (.literal (.integer m)) false))) :=
  let toks : List Token := [.ident "x", .kwBetween, .intLit n, .kwAnd, .intLit m, .eof]
  between_parse_template toks 148 "x" _ _ 3 5 rfl rfl
    (@value_single_step toks 2 (.literal (.integer n)) (148 + 2) rfl rfl) rfl
    (@value_single_step toks 4 (.literal (.integer m)) (148 + 2) rfl rfl) rfl rfl

/-- Shape instance of `between_parse_template`. -/
theorem between_shape_ab (n : Int) (m : Int) :
    parseTokens [.ident "x", .kwBetween, .intLit n, .kwAnd, .minus, .intLit m, .eof]
      = (validateBetweenBounds (.integer n) (.integer (-m))).bind
          (fun _ => .ok (.relational (.between (.variable "x")
            (.literal (.integer n)) (.unaryMinus (.literal (.integer m))) false))) :=
  let toks : List Token := [.ident "x", .kwBetween, .intLit n, .kwAnd, .minus, .intLit m, .eof]
  between_parse_template toks 164 "x" _ _ 3 6 rfl rfl
    (@value_single_step toks 2 (.literal (.integer n)) (164 + 2) rfl rfl) rfl
    (@value_neg_single_step toks 4 (.literal (.integer m) ) (164 + 1) rfl rfl rfl) rfl rfl

/-- Shape instance of `between_parse_template`. -/
theorem between_shape_ac (n : Int) (r : Frac) :
    parseTokens [.ident "x", .kwBetween, .intLit n, .kwAnd, .floatLit r, .eof]
      = (validateBetweenBounds (.integer n) (.float r)).bind
          (fun _ => .ok (.relational (.between (.variable "x")
            (.literal (.integer n)) (.literal (.float r)) false))) :=
  let toks : List Token := [.ident "x", .kwBetween, .intLit n, .kwAnd, .floatLit r, .eof]
  between_parse_template toks 148 "x" _ _ 3 5 rfl rfl
    (@value_single_step toks 2 (.literal (.integer n)) (148 + 2) rfl rfl) rfl
    (@value_single_step toks 4 (.literal (.float r)) (148 + 2) rfl rfl) rfl rfl

/-- Shape instance of `between_parse_template`. -/
theorem between_shape_ad (n : Int) (r : Frac) :
    parseTokens [.ident "x", .kwBetween, .intLit n, .kwAnd, .minus, .floatLit r, .eof]
      = (validateBetweenBounds (.integer n) (.float (fracNeg r))).bind
          (fun _ => .ok (.relational (.between (.variable "x")
            (.literal (.integer n)) (.unaryMinus (.literal (.float r))) false))) :=
  let toks : List Token := [.ident "x", .kwBetween, .intLit n, .kwAnd, .minus, .floatLit r, .eof]
  between_parse_template toks 164 "x" _ _ 3 6 rfl rfl
    (@value_single_step toks 2 (.literal (.integer n)) (164 + 2) rfl rfl) rfl
    (@value_neg_single_step toks 4 (.literal (.float r) ) (164 + 1) rfl rfl rfl) rfl rfl

/-- Shape instance of `between_parse_template`. -/
theorem between_shape_ba (n : Int) (m : Int) :
    parseTokens [.ident "x", .kwBetween, .minus, .intLit n, .kwAnd, .intLit m, .eof]
      = (validateBetweenBounds (.integer (-n)) (.integer m)).bind
          (fun _ => .ok (.relational (.between (.variable "x")
            (.unaryMinus (.literal (.integer n))) (.literal (.integer m)) false))) :=
  let toks : List Token := [.ident "x", .kwBetween, .minus, .intLit n, .kwAnd, .intLit m, .eof]
  between_parse_template toks 164 "x" _ _ 4 6 rfl rfl
    (@value_neg_single_step toks 2 (.literal (.integer n) ) (164 + 1) rfl rfl rfl) rfl
    (@value_single_step toks 5 (.literal (.integer m)) (164 + 2) rfl rfl) rfl rfl

/-- Shape instance of `between_parse_template`. -/
theorem between_shape_bb (n : Int) (m : Int) :
    parseTokens [.ident "x", .kwBetween, .minus, .intLit n, .kwAnd, .minus, .intLit m, .eof]
      = (validateBetweenBounds (.integer (-n)) (.integer (-m))).bind
          (fun _ => .ok (.relational (.between (.variable "x")
            (.unaryMinus (.literal (.integer n))) (.unaryMinus (.literal (.integer m))) false))) :=
  let toks : List Token := [.ident "x", .kwBetween, .minus, .intLit n, .kwAnd, .minus, .intLit m, .eof]
  between_parse_template toks 180 "x" _ _ 4 7 rfl rfl
    (@value_neg_single_step toks 2 (.literal (.integer n) ) (180 + 1) rfl rfl rfl) rfl
    (@value_neg_single_step toks 5 (.literal (.integer m) ) (180 + 1) rfl rfl rfl) rfl rfl

/-- Shape instance of `between_parse_template`. -/
theorem between_shape_bc (n : Int) (r : Frac) :
    parseTokens [.ident "x", .kwBetween, .minus, .intLit n, .kwAnd, .floatLit r, .eof]
      = (validateBetweenBounds (.integer (-n)) (.float r)).bind
          (fun _ => .ok (.relational (.between (.variable "x")
            (.unaryMinus (.literal (.integer n))) (.literal (.float r)) false))) :=
  let toks : List Token := [.ident "x", .kwBetween, .minus, .intLit n, .kwAnd, .floatLit r, .eof]
  between_parse_template toks 164 "x" _ _ 4 6 rfl rfl
    (@value_neg_single_step toks 2 (.literal (.integer n) ) (164 + 1) rfl rfl rfl) rfl
    (@value_single_step toks 5 (.literal (.float r)) (164 + 2) rfl rfl) rfl rfl

/-- Shape instance of `between_parse_template`. -/
theorem between_shape_bd (n : Int) (r : Frac) :
    parseTokens [.ident "x", .kwBetween, .minus, .intLit n, .kwAnd, .minus, .floatLit r, .eof]
      = (validateBetweenBounds (.integer (-n)) (.float (fracNeg r))).bind
          (fun _ => .ok (.relational (.between (.variable "x")
            (.unaryMinus (.literal (.integer n))) (.unaryMinus (.literal (.float r))) false))) :=
  let toks : List Token := [.ident "x", .kwBetween, .minus, .intLit n, .kwAnd, .minus, .floatLit r, .eof]
  between_parse_template toks 180 "x" _ _ 4 7 rfl rfl
    (@value_neg_single_step toks 2 (.literal (.integer n) ) (180 + 1) rfl rfl rfl) rfl
    (@value_neg_single_step toks 5 (.literal (.float r) ) (180 + 1) rfl rfl rfl) rfl rfl

/-- Shape instance of `between_parse_template`. -/
theorem between_shape_ca (q : Frac) (m : Int) :
    parseTokens [.ident "x", .kwBetween, .floatLit q, .kwAnd, .intLit m, .eof]
      = (validateBetweenBounds (.float q) (.integer m)).bind
          (fun _ => .ok (.relational (.between (.variable "x")
            (.literal (.float q)) (.literal (.integer m)) false))) :=
  let toks : List Token := [.ident "x", .kwBetween, .floatLit q, .kwAnd, .intLit m, .eof]
  between_parse_template toks 148 "x" _ _ 3 5 rfl rfl
    (@value_single_step toks 2 (.literal (.float q)) (148 + 2) rfl rfl) rfl
    (@value_single_step toks 4 (.literal (.integer m)) (148 + 2) rfl rfl) rfl rfl

/-- Shape instance of `between_parse_template`. -/
theorem between_shape_cb (q : Frac) (m : Int) :
    parseTokens [.ident "x", .kwBetween, .floatLit q, .kwAnd, .minus, .intLit m, .eof]
      = (validateBetweenBounds (.float q) (.integer (-m))).bind
          (fun _ => .ok (.relational (.between (.variable "x")
            (.literal (.float q)) (.unaryMinus (.literal (.integer m))) false))) :=
  let toks : List Token := [.ident "x", .kwBetween, .floatLit q, .kwAnd, .minus, .intLit m, .eof]
  between_parse_template toks 164 "x" _ _ 3 6 rfl rfl
    (@value_single_step toks 2 (.literal (.float q)) (164 + 2) rfl rfl) rfl
    (@value_neg_single_step toks 4 (.literal (.integer m) ) (164 + 1) rfl rfl rfl) rfl rfl

/-- Shape instance of `between_parse_template`. -/
theorem between_shape_cc (q : Frac) (r : Frac) :
    parseTokens [.ident "x", .kwBetween, .floatLit q, .kwAnd, .floatLit r, .eof]
      = (validateBetweenBounds (.float q) (.float r)).bind
          (fun _ => .ok (.relational (.between (.variable "x")
            (.literal (.float q)) (.literal (.float r)) false))) :=
  let toks : List Token := [.ident "x", .kwBetween, .floatLit q, .kwAnd, .floatLit r, .eof]
  between_parse_template toks 148 "x" _ _ 3 5 rfl rfl
    (@value_single_step toks 2 (.literal (.float q)) (148 + 2) rfl rfl) rfl
    (@value_single_step toks 4 (.literal (.float r)) (148 + 2) rfl rfl) rfl rfl

/-- Shape instance of `between_parse_template`. -/
theorem between_shape_cd (q : Frac) (r : Frac) :
    parseTokens [.ident "x", .kwBetween, .floatLit q, .kwAnd, .minus, .floatLit r, .eof]
      = (validateBetweenBounds (.float q) (.float (fracNeg r))).bind
          (fun _ => .ok (.relational (.between (.variable "x")
            (.literal (.float q)) (.unaryMinus (.literal (.float r))) false))) :=
  let toks : List Token := [.ident "x", .kwBetween, .floatLit q, .kwAnd, .minus, .floatLit r, .eof]
  between_parse_template toks 164 "x" _ _ 3 6 rfl rfl
    (@value_single_step toks 2 (.literal (.float q)) (164 + 2) rfl rfl) rfl
    (@value_neg_single_step toks 4 (.literal (.float r) ) (164 + 1) rfl rfl rfl) rfl rfl

/-- Shape instance of `between_parse_template`. -/
theorem between_shape_da (q : Frac) (m : Int) :
    parseTokens [.ident "x", .kwBetween, .minus, .floatLit q, .kwAnd, .intLit m, .eof]
      = (validateBetweenBounds (.float (fracNeg q)) (.integer m)).bind
          (fun _ => .ok (.relational (.between (.variable "x")
            (.unaryMinus (.literal (.float q))) (.literal (.integer m)) false))) :=
  let toks : List Token := [.ident "x", .kwBetween, .minus, .floatLit q, .kwAnd, .intLit m, .eof]
  between_parse_template toks 164 "x" _ _ 4 6 rfl rfl
    (@value_neg_single_step toks 2 (.literal (.float q) ) (164 + 1) rfl rfl rfl) rfl
    (@value_single_step toks 5 (.literal (.integer m)) (164 + 2) rfl rfl) rfl rfl

/-- Shape instance of `between_parse_template`. -/
theorem between_shape_db (q : Frac) (m : Int) :
    parseTokens [.ident "x", .kwBetween, .minus, .floatLit q, .kwAnd, .minus, .intLit m, .eof]
      = (validateBetweenBounds (.float (fracNeg q)) (.integer (-m))).bind
          (fun _ => .ok (.relational (.between (.variable "x")
            (.unaryMinus (.literal (.float q))) (.unaryMinus (.literal (.integer m))) false))) :=
  let toks : List Token := [.ident "x", .kwBetween, .minus, .floatLit q, .kwAnd, .minus, .intLit m, .eof]
  between_parse_template toks 180 "x" _ _ 4 7 rfl rfl
    (@value_neg_single_step toks 2 (.literal (.float q) ) (180 + 1) rfl rfl rfl) rfl
    (@value_neg_single_step toks 5 (.literal (.integer m) ) (180 + 1) rfl rfl rfl) rfl rfl

/-- Shape instance of `between_parse_template`. -/
theorem between_shape_dc (q : Frac) (r : Frac) :
    parseTokens [.ident "x", .kwBetween, .minus, .floatLit q, .kwAnd, .floatLit r, .eof]
      = (validateBetweenBounds (.float (fracNeg q)) (.float r)).bind
          (fun _ => .ok (.relational (.between (.variable "x")
            (.unaryMinus (.literal (.float q))) (.literal (.float r)) false))) :=
  let toks : List Token := [.ident "x", .kwBetween, .minus, .floatLit q, .kwAnd, .floatLit r, .eof]
  between_parse_template toks 164 "x" _ _ 4 6 rfl rfl
    (@value_neg_single_step toks 2 (.literal (.float q) ) (164 + 1) rfl rfl rfl) rfl
    (@value_single_step toks 5 (.literal (.float r)) (164 + 2) rfl rfl) rfl rfl

/-- Shape instance of `between_parse_template`. -/
theorem between_shape_dd (q : Frac) (r : Frac) :
    parseTokens [.ident "x", .kwBetween, .minus, .floatLit q, .kwAnd, .minus, .floatLit r, .eof]
      = (validateBetweenBounds (.float (fracNeg q)) (.float (fracNeg r))).bind
          (fun _ => .ok (.relational (.between (.variable "x")
            (.unaryMinus (.literal (.float q))) (.unaryMinus (.literal (.float r))) false))) :=
  let toks : List Token := [.ident "x", .kwBetween, .minus, .floatLit q, .kwAnd, .minus, .floatLit r, .eof]
  between_parse_template toks 180 "x" _ _ 4 7 rfl rfl
    (@value_neg_single_step toks 2 (.literal (.float q) ) (180 + 1) rfl rfl rfl) rfl
    (@value_neg_single_step toks 5 (.literal (.float r) ) (180 + 1) rfl rfl rfl) rfl rfl

/-- Shape instance of `between_parse_template`. -/
theorem between_shape_ss (s1 : String) (s2 : String) :
    parseTokens [.ident "x", .kwBetween, .strLit s1, .kwAnd, .strLit s2, .eof]
      = (validateBetweenBounds (.string s1) (.string s2)).bind
          (fun _ => .ok (.relational (.between (.variable "x")
            (.literal (.string s1)) (.literal (.string s2)) false))) :=
  let toks : List Token := [.ident "x", .kwBetween, .strLit s1, .kwAnd, .strLit s2, .eof]
  between_parse_template toks 148 "x" _ _ 3 5 rfl rfl
    (@value_single_step toks 2 (.literal (.string s1)) (148 + 2) rfl rfl) rfl
    (@value_single_step toks 4 (.literal (.string s2)) (148 + 2) rfl rfl) rfl rfl

/-- A bind whose continuation is constantly `ok` succeeds iff its first
step does. -/
theorem isOkB_bind_const (v : Except ParseError Unit) (b : BooleanExpr) :
    (v.bind (fun _ => (Except.ok b : Except ParseError BooleanExpr))).isOkB = v.isOkB := by
  cases v <;> rfl

/-- Double float negation is the identity. -/
theorem fracNeg_fracNeg (q : Frac) : fracNeg (fracNeg q) = q := by
  simp [fracNeg]

/-- For compatible bounds the ordering validation succeeds exactly when the
specification's coerced comparison holds. -/
theorem validateBetweenBounds_isOkB (lo hi : ValueLiteral)
    (h : areBetweenCompatible lo hi = true) :
    (validateBetweenBounds lo hi).isOkB = litLE lo hi := by
  cases lo <;> cases hi <;> simp only [areBetweenCompatible] at h <;> try exact absurd h (by decide)
  all_goals simp only [validateBetweenBounds, litLE]
  case integer.integer n m =>
    by_cases hlt : n > m <;> simp [hlt, Except.isOkB] <;> try omega
  case integer.float n q =>
    by_cases hlt : fracLtB q (intF n) = true <;>
      simp only [hlt, if_pos, if_neg, Bool.false_eq_true, Except.isOkB] <;>
      simp only [fracLtB, fracLeB, intF, decide_eq_true_eq] at hlt ⊢ <;>
      simp <;> omega
  case float.integer q m =>
    by_cases hlt : fracLtB (intF m) q = true <;>
      simp only [hlt, if_pos, if_neg, Bool.false_eq_true, Except.isOkB] <;>
      simp only [fracLtB, fracLeB, intF, decide_eq_true_eq] at hlt ⊢ <;>
      simp <;> omega
  case float.float q r =>
    by_cases hlt : fracLtB r q = true <;>
      simp only [hlt, if_pos, if_neg, Bool.false_eq_true, Except.isOkB] <;>
      simp only [fracLtB, fracLeB, decide_eq_true_eq] at hlt ⊢ <;>
      simp <;> omega
  case string.string a b =>
    cases hlt : strLtB b a <;> simp [strLeB, hlt, Except.isOkB]


/-! ## Claim theorems -/

/-- C1: For every pair of evaluated operands of the Divide operation,
evaluation coerces both operands to Float and returns a Float result (or a
DivisionByZero error for a zero divisor), even when both operands are
Integers; in particular with bindings a=Integer(10), b=Integer(4),
`evaluate "a / b = 2.5"` returns `Ok(true)` — integer division never
truncates to an Integer. -/
theorem divide_always_coerces_to_float :
    (∀ (vm : Bindings) (input : String) (l r : ValueExpr) (va vb : SubValue) (qa qb : Frac),
      evalValue vm input l = .ok va →
      evalValue vm input r = .ok vb →
      toNumeric va = .ok qa →
      toNumeric vb = .ok qb →
      evalValue vm input (.divide l r) =
        (if fracEqB qb fracZero then .error (.divisionByZero input)
         else .ok (.float (fracDiv qa qb))))
    ∧ evaluate "a / b = 2.5" [("a", .integer 10), ("b", .integer 4)] = .ok true := by
  refine ⟨?_, by decide⟩
  intro vm input l r va vb qa qb hl hr hqa hqb
  cases va <;> simp only [toNumeric, Except.ok.injEq] at hqa <;> try exact absurd hqa (by simp)
  all_goals cases vb <;> simp only [toNumeric, Except.ok.injEq] at hqb <;>
    try exact absurd hqb (by simp)
  all_goals subst hqa; subst hqb
  all_goals simp [evalValue, hl, hr, arithDivide, SubValue.isNullB, bind, Except.bind]

/-- C1 witness. -/
theorem divide_always_coerces_to_float_witness :
    evalValue [] "a / b" (.divide (.literal (.integer 10)) (.literal (.integer 4)))
      = .ok (.float ⟨10, 4⟩) := by
  have h := divide_always_coerces_to_float.1 [] "a / b"
    (.literal (.integer 10)) (.literal (.integer 4))
    (.integer 10) (.integer 4) (intF 10) (intF 4) rfl rfl rfl rfl
  rw [h]
  decide

/-- C2: And / Or evaluation short-circuits: whenever the left operand of an
And evaluates to false (of an Or: to true), the conjunction evaluates to
Ok(false) (Ok(true)) no matter what the right operand is — in particular no
error the right operand would raise surfaces; concretely,
`evaluate "FALSE AND b"` is `Ok(false)` although `b` is unbound. -/
theorem and_or_short_circuit :
    (∀ (vm : Bindings) (input : String) (l r : BooleanExpr),
      evalBoolean vm input l = .ok false →
      evalBoolean vm input (.and l r) = .ok false)
    ∧ (∀ (vm : Bindings) (input : String) (l r : BooleanExpr),
      evalBoolean vm input l = .ok true →
      evalBoolean vm input (.or l r) = .ok true)
    ∧ evaluate "FALSE AND b" [("a", .integer 1)] = .ok false := by
  refine ⟨?_, ?_, by decide⟩
  · intro vm input l r h
    simp [evalBoolean, h, bind, Except.bind]
  · intro vm input l r h
    simp [evalBoolean, h, bind, Except.bind]

/-- C2 witness. -/
theorem and_or_short_circuit_witness :
    evalBoolean [] "w" (.and (.literal false) (.variable "missing")) = .ok false :=
  and_or_short_circuit.1 [] "w" (.literal false) (.variable "missing") rfl

/-- C3: for every literal pair (lo, hi) of BETWEEN-compatible type, parsing
`x BETWEEN lo AND hi` (as the token stream the lexer produces for it)
succeeds iff lo ≤ hi under same-type comparison (numeric with int/float
coercion, strings lexicographic); in particular `x BETWEEN 100 AND 50` is a
parse error and `x BETWEEN 18 AND 65` parses. -/
theorem between_bounds_ordering :
    (∀ lo hi : ValueLiteral, areBetweenCompatible lo hi = true →
      (parseTokens ([.ident "x", .kwBetween] ++ litTokens lo
          ++ [.kwAnd] ++ litTokens hi ++ [.eof])).isOkB = litLE lo hi)
    ∧ (parse "x BETWEEN 100 AND 50").isOkB = false
    ∧ (parse "x BETWEEN 18 AND 65").isOkB = true := by
  refine ⟨?_, by decide, by decide⟩
  intro lo hi hc
  cases lo <;> cases hi <;> simp only [areBetweenCompatible] at hc <;>
    try exact absurd hc (by decide)
  case integer.integer n m =>
    by_cases hn : n < 0 <;> by_cases hm : m < 0
    · simp only [litTokens, if_pos hn, if_pos hm, List.cons_append, List.nil_append,
        between_shape_bb, isOkB_bind_const, neg_neg]
      exact validateBetweenBounds_isOkB (.integer n) (.integer m) rfl
    · simp only [litTokens, if_pos hn, if_neg hm, List.cons_append, List.nil_append,
        between_shape_ba, isOkB_bind_const, neg_neg]
      exact validateBetweenBounds_isOkB (.integer n) (.integer m) rfl
    · simp only [litTokens, if_neg hn, if_pos hm, List.cons_append, List.nil_append,
        between_shape_ab, isOkB_bind_const, neg_neg]
      exact validateBetweenBounds_isOkB (.integer n) (.integer m) rfl
    · simp only [litTokens, if_neg hn, if_neg hm, List.cons_append, List.nil_append,
        between_shape_aa, isOkB_bind_const]
      exact validateBetweenBounds_isOkB (.integer n) (.integer m) rfl
  case integer.float n r =>
    by_cases hn : n < 0 <;> by_cases hr : r.num < 0
    · simp only [litTokens, if_pos hn, if_pos hr, List.cons_append, List.nil_append,
        between_shape_bd, isOkB_bind_const, neg_neg, fracNeg_fracNeg]
      exact validateBetweenBounds_isOkB (.integer n) (.float r) rfl
    · simp only [litTokens, if_pos hn, if_neg hr, List.cons_append, List.nil_append,
        between_shape_bc, isOkB_bind_const, neg_neg]
      exact validateBetweenBounds_isOkB (.integer n) (.float r) rfl
    · simp only [litTokens, if_neg hn, if_pos hr, List.cons_append, List.nil_append,
        between_shape_ad, isOkB_bind_const, fracNeg_fracNeg]
      exact validateBetweenBounds_isOkB (.integer n) (.float r) rfl
    · simp only [litTokens, if_neg hn, if_neg hr, List.cons_append, List.nil_append,
        between_shape_ac, isOkB_bind_const]
      exact validateBetweenBounds_isOkB (.integer n) (.float r) rfl
  case float.integer q m =>
    by_cases hq : q.num < 0 <;> by_cases hm : m < 0
    · simp only [litTokens, if_pos hq, if_pos hm, List.cons_append, List.nil_append,
        between_shape_db, isOkB_bind_const, neg_neg, fracNeg_fracNeg]
      exact validateBetweenBounds_isOkB (.float q) (.integer m) rfl
    · simp only [litTokens, if_pos hq, if_neg hm, List.cons_append, List.nil_append,
        between_shape_da, isOkB_bind_const, fracNeg_fracNeg]
      exact validateBetweenBounds_isOkB (.float q) (.integer m) rfl
    · simp only [litTokens, if_neg hq, if_pos hm, List.cons_append, List.nil_append,
        between_shape_cb, isOkB_bind_const, neg_neg]
      exact validateBetweenBounds_isOkB (.float q) (.integer m) rfl
    · simp only [litTokens, if_neg hq, if_neg hm, List.cons_append, List.nil_append,
        between_shape_ca, isOkB_bind_const]
      exact validateBetweenBounds_isOkB (.float q) (.integer m) rfl
  case float.float q r =>
    by_cases hq : q.num < 0 <;> by_cases hr : r.num < 0
    · simp only [litTokens, if_pos hq, if_pos hr, List.cons_append, List.nil_append,
        between_shape_dd, isOkB_bind_const, fracNeg_fracNeg]
      exact validateBetweenBounds_isOkB (.float q) (.float r) rfl
    · simp only [litTokens, if_pos hq, if_neg hr, List.cons_append, List.nil_append,
        between_shape_dc, isOkB_bind_const, fracNeg_fracNeg]
      exact validateBetweenBounds_isOkB (.float q) (.float r) rfl
    · simp only [litTokens, if_neg hq, if_pos hr, List.cons_append, List.nil_append,
        between_shape_cd, isOkB_bind_const, fracNeg_fracNeg]
      exact validateBetweenBounds_isOkB (.float q) (.float r) rfl
    · simp only [litTokens, if_neg hq, if_neg hr, List.cons_append, List.nil_append,
        between_shape_cc, isOkB_bind_const]
      exact validateBetweenBounds_isOkB (.float q) (.float r) rfl
  case string.string s1 s2 =>
    simp only [litTokens, List.cons_append, List.nil_append,
      between_shape_ss, isOkB_bind_const]
    exact validateBetweenBounds_isOkB (.string s1) (.string s2) rfl

/-- C3 witness. -/
theorem between_bounds_ordering_witness :
    areBetweenCompatible (.integer 100) (.integer 50) = true ∧
    (parseTokens ([.ident "x", .kwBetween] ++ litTokens (.integer 100)
        ++ [.kwAnd] ++ litTokens (.integer 50) ++ [.eof])).isOkB
      = litLE (.integer 100) (.integer 50) :=
  ⟨by decide, between_bounds_ordering.1 (.integer 100) (.integer 50) (by decide)⟩


/-- The IN-list loop preserves and establishes the list discipline: every
element delivered was appended after passing the NULL/Boolean check and the
exact-type check against the first element. -/
theorem inListLoop_invariant (toks : List Token) (first : ValueLiteral) :
    ∀ (fuel : Nat) (acc : List ValueLiteral) (p : Nat) (vs : List ValueLiteral) (pz : Nat),
      inListLoop toks fuel first acc p = .ok (vs, pz) →
      (∀ v ∈ acc, areExactSameType first v = true ∧ validateInLiteral v = .ok ()) →
      (∃ t, vs = acc ++ t) ∧
        ∀ v ∈ vs, areExactSameType first v = true ∧ validateInLiteral v = .ok () := by
  intro fuel
  induction fuel with
  | zero =>
    intro acc p vs pz h hacc
    unfold inListLoop at h
    split at h
    · exact absurd h (by simp [fuelErr])
    · simp only [bind, Except.bind] at h
      split at h
      · simp_all
      · simp only [Except.ok.injEq, Prod.mk.injEq] at h
        obtain ⟨rfl, rfl⟩ := h
        exact ⟨⟨[], by simp⟩, hacc⟩
  | succ f ih =>
    intro acc p vs pz h hacc
    unfold inListLoop at h
    split at h
    · simp only [bind, Except.bind] at h
      cases hev : expectValueLiteral toks (padv toks p) with
      | error e => rw [hev] at h; exact absurd h (by simp)
      | ok pr =>
        rw [hev] at h
        dsimp only at h
        cases hval : validateInLiteral pr.1 with
        | error e => rw [hval] at h; exact absurd h (by simp)
        | ok u =>
          rw [hval] at h
          dsimp only at h
          split at h
          · exact absurd h (by simp)
          · next hty =>
            have hnext : areExactSameType first pr.1 = true ∧ validateInLiteral pr.1 = .ok () := by
              refine ⟨by simpa using hty, ?_⟩
              cases u
              exact hval
            obtain ⟨⟨t, ht⟩, hall⟩ := ih (acc ++ [pr.1]) pr.2 vs pz h (by
              intro v hv
              rcases List.mem_append.mp hv with hv | hv
              · exact hacc v hv
              · simp at hv; subst hv; exact hnext)
            exact ⟨⟨pr.1 :: t, by simpa [List.append_assoc] using ht⟩, hall⟩
    · simp only [bind, Except.bind] at h
      split at h
      · simp_all
      · simp only [Except.ok.injEq, Prod.mk.injEq] at h
        obtain ⟨rfl, rfl⟩ := h
        exact ⟨⟨[], by simp⟩, hacc⟩

/-- C4: a parsed IN / NOT IN list is nonempty, every element passed the
NULL/Boolean rejection, and all elements share the exact literal type of
the first element (Integer and Float may not mix); in particular
`x IN (1, 2.5, 3)` is a parse error while `x IN (1, 2, 3)` parses, and a
NULL or Boolean element is rejected. -/
theorem in_list_exact_type_discipline :
    (∀ (toks : List Token) (fuel p : Nat) (vs : List ValueLiteral) (pz : Nat),
      parseStringList toks fuel p = .ok (vs, pz) →
      ∃ first rest, vs = first :: rest ∧
        ∀ v ∈ vs, areExactSameType first v = true ∧ validateInLiteral v = .ok ())
    ∧ (parse "x IN (1, 2.5, 3)").isOkB = false
    ∧ (parse "x IN (1, 2, 3)").isOkB = true
    ∧ (parse "x IN (NULL, 1)").isOkB = false
    ∧ (parse "x IN (1, NULL)").isOkB = false
    ∧ (parse "x IN (1, TRUE)").isOkB = false := by
  refine ⟨?_, by decide, by decide, by decide, by decide, by decide⟩
  intro toks fuel p vs pz h
  simp only [parseStringList, bind, Except.bind] at h
  cases hlp : expectTok toks .lparen p with
  | error e => rw [hlp] at h; exact absurd h (by simp)
  | ok p1 =>
    rw [hlp] at h
    dsimp only at h
    cases hev : expectValueLiteral toks p1 with
    | error e => rw [hev] at h; exact absurd h (by simp)
    | ok pr =>
      rw [hev] at h
      dsimp only at h
      cases hval : validateInLiteral pr.1 with
      | error e => rw [hval] at h; exact absurd h (by simp)
      | ok u =>
        rw [hval] at h
        dsimp only at h
        have hself : areExactSameType pr.1 pr.1 = true ∧ validateInLiteral pr.1 = .ok () := by
          refine ⟨?_, by cases u; exact hval⟩
          cases hl : pr.1 <;> rw [hl] at hval <;>
            simp [validateInLiteral] at hval ⊢ <;> simp [areExactSameType]
        obtain ⟨⟨t, ht⟩, hall⟩ := inListLoop_invariant toks pr.1 fuel [pr.1] pr.2 vs pz h (by
          intro v hv
          simp at hv; subst hv; exact hself)
        exact ⟨pr.1, t, by simpa using ht, hall⟩

/-- C4 witness. -/
theorem in_list_exact_type_discipline_witness :
    ∃ first rest, ([ValueLiteral.integer 1, .integer 2] : List ValueLiteral) = first :: rest ∧
      ∀ v ∈ ([ValueLiteral.integer 1, .integer 2] : List ValueLiteral),
        areExactSameType first v = true ∧ validateInLiteral v = .ok () :=
  in_list_exact_type_discipline.1
    [.lparen, .intLit 1, .comma, .intLit 2, .rparen, .eof] 9 0
    [.integer 1, .integer 2] 5 (by decide)

/-- C5 counterexample: evaluating IS NULL is not error-free for every
tested value expression and binding map — an unbound variable in the
tested expression surfaces as an UnboundVariable error, where the claim
requires Ok. -/
theorem is_null_unbound_variable_errors :
    evaluate "y IS NULL" [] = .error (.unboundVariable "y") := by decide

/-- C5 (amended): when the tested value expression itself evaluates
successfully, IS NULL / IS NOT NULL never errors: it returns the value's
nullity, inverted by the negated flag (NULL operands are accepted, unlike
every other relational operator); in particular
`evaluate "x IS NULL" {x: Null}` is `Ok(true)`. -/
theorem is_null_tests_nullity :
    (∀ (vm : Bindings) (input : String) (e : ValueExpr) (negated : Bool) (v : SubValue),
      evalValue vm input e = .ok v →
      evalIsNull vm input e negated = .ok (if negated then !v.isNullB else v.isNullB))
    ∧ evaluate "x IS NULL" [("x", .null)] = .ok true
    ∧ evaluate "x IS NOT NULL" [("x", .null)] = .ok false := by
  refine ⟨?_, by decide, by decide⟩
  intro vm input e negated v h
  simp [evalIsNull, h, bind, Except.bind]

/-- C5 witness. -/
theorem is_null_tests_nullity_witness :
    evalIsNull [("x", RuntimeValue.null)] "w" (.variable "x") false = .ok true := by
  have h := is_null_tests_nullity.1 [("x", .null)] "w" (.variable "x") false .null rfl
  rw [h]
  rfl

/-- C6 counterexample: the Between node returned by parse stores the bound
written `-5` as the original `UnaryMinus(Literal(Integer(5)))` expression —
the signed literal `Integer(-5)` is only computed for validation, so the
claim's "stored as the signed literal" is false on the code. -/
theorem between_bound_stored_with_unary_minus :
    parse "x BETWEEN -5 AND 10"
      = .ok (.relational (.between (.variable "x")
          (.unaryMinus (.literal (.integer 5))) (.literal (.integer 10)) false))
    ∧ (ValueExpr.unaryMinus (.literal (.integer 5)) ≠ .literal (.integer (-5))) :=
  ⟨by decide, by decide⟩

/-- C6 (amended): a BETWEEN bound must reduce to a literal optionally
wrapped in exactly one unary + or -, whose sign is folded into a signed
literal for the validation checks only — the returned Between node keeps
the original (possibly unary-wrapped) expression; variables and binary
operations as bounds are parse errors, while a parenthesized literal is
accepted because parentheses leave no trace in the value AST. -/
theorem between_bound_literal_shapes :
    (∀ (e : ValueExpr) (lit : ValueLiteral), extractLiteral e = .ok lit ↔
      (e = .literal lit
        ∨ (∃ n, e = .unaryMinus (.literal (.integer n)) ∧ lit = .integer (-n))
        ∨ (∃ q, e = .unaryMinus (.literal (.float q)) ∧ lit = .float (fracNeg q))
        ∨ e = .unaryPlus (.literal lit)))
    ∧ (parse "x BETWEEN y AND 10").isOkB = false
    ∧ (parse "x BETWEEN 1 + 2 AND 10").isOkB = false
    ∧ (parse "x BETWEEN (5) AND 10").isOkB = true
    ∧ parse "x BETWEEN -5 AND 10"
        = .ok (.relational (.between (.variable "x")
            (.unaryMinus (.literal (.integer 5))) (.literal (.integer 10)) false)) := by
  refine ⟨?_, by decide, by decide, by decide, by decide⟩
  intro e lit
  cases e <;> simp only [extractLiteral]
  · simp
  · simp
  · simp
  · simp
  · simp
  · rename_i inner
    cases inner <;> simp [extractLiteral, eq_comm]
  · rename_i inner
    cases inner
    case literal l => cases l <;> simp [eq_comm]
    all_goals simp
  · simp [eq_comm]
  · simp

/-- C6 amended-theorem witness. -/
theorem between_bound_literal_shapes_witness :
    extractLiteral (.unaryMinus (.literal (.integer 5))) = .ok (.integer (-5)) :=
  (between_bound_literal_shapes.1 _ _).mpr (Or.inr (Or.inl ⟨5, rfl, rfl⟩))


/-- The fuelled atom matcher agrees with the declarative anchored LIKE
semantics whenever the fuel exceeds the combined length of pattern atoms
and subject. -/
theorem atomsMatch_iff_likeMatches :
    ∀ (fuel : Nat) (ps : List LikeAtom) (s : List Char),
      ps.length + s.length < fuel →
      (atomsMatch fuel ps s = true ↔ LikeMatches ps s) := by
  intro fuel
  induction fuel with
  | zero => intro ps s h; omega
  | succ f ih =>
    intro ps s hlen
    match ps, s with
    | [], [] =>
      simp [atomsMatch]
      exact .nil
    | [], d :: ds =>
      simp [atomsMatch]
      intro h
      cases h
    | .lit c :: ps1, d :: ds =>
      simp only [atomsMatch, Bool.and_eq_true, beq_iff_eq]
      rw [ih ps1 ds (by simp at hlen ⊢; omega)]
      constructor
      · rintro ⟨rfl, h⟩
        exact .lit c ps1 ds h
      · intro h
        cases h with
        | lit _ _ _ h1 => exact ⟨rfl, h1⟩
    | .lit c :: ps1, [] =>
      simp [atomsMatch]
      intro h
      cases h
    | .anyChar :: ps1, d :: ds =>
      simp only [atomsMatch, Bool.and_eq_true, decide_eq_true_eq]
      rw [ih ps1 ds (by simp at hlen ⊢; omega)]
      constructor
      · rintro ⟨hd, h⟩
        exact .one d ps1 ds hd h
      · intro h
        cases h with
        | one _ _ _ hd h1 => exact ⟨hd, h1⟩
    | .anyChar :: ps1, [] =>
      simp [atomsMatch]
      intro h
      cases h
    | .anyStr :: ps1, t =>
      simp only [atomsMatch, Bool.or_eq_true]
      constructor
      · rintro (h | h)
        · have := (ih ps1 t (by simp at hlen ⊢; omega)).mp h
          exact .many [] ps1 t (by simp) this
        · match t, h with
          | d :: ds, h =>
            simp only [Bool.and_eq_true, decide_eq_true_eq] at h
            obtain ⟨hd, h⟩ := h
            have := (ih (.anyStr :: ps1) ds (by simp at hlen ⊢; omega)).mp h
            cases this with
            | many seg ps2 ds2 hseg hrest =>
              have hsplit : d :: (seg ++ ds2) = (d :: seg) ++ ds2 := by simp
              rw [hsplit]
              refine .many (d :: seg) ps1 ds2 ?_ hrest
              intro c hc
              rcases List.mem_cons.mp hc with rfl | hc
              · exact hd
              · exact hseg c hc
      · intro h
        cases h with
        | many seg ps2 ds hseg hrest =>
          match seg with
          | [] =>
            left
            exact (ih ps1 ds (by simp at hlen ⊢; omega)).mpr hrest
          | c :: seg1 =>
            right
            simp only [List.cons_append, Bool.and_eq_true, decide_eq_true_eq]
            refine ⟨hseg c (by simp), ?_⟩
            refine (ih (.anyStr :: ps1) (seg1 ++ ds) ?_).mpr (.many seg1 ps1 ds ?_ hrest)
            · simp at hlen ⊢; omega
            · intro c1 hc1
              exact hseg c1 (by simp [hc1])

/-- C7 counterexample: the compiled wildcards do not match a newline (the
regex crate's `.` and `.*` exclude it), so the value `A\nB` does not match
the pattern `A_B` although the claim's "`_` matches exactly one character"
requires it to. -/
theorem like_wildcard_rejects_newline :
    evaluate "x LIKE 'A_B'" [("x", .string "A\nB")] = .ok false := by decide

/-- C7 (amended): LIKE matches the whole string, anchored at both ends:
an escaped pattern character and every ordinary pattern character match
exactly themselves, `_` matches exactly one non-newline character, `%`
matches any sequence of non-newline characters, and the negated flag
inverts the result ("A1B" matches pattern A_B, does not match A followed by
four underscores, and the ESCAPE clause makes `%` literal). -/
theorem like_anchored_wildcard_semantics :
    (∀ (fuel : Nat) (ps : List LikeAtom) (s : List Char),
      ps.length + s.length < fuel →
      (atomsMatch fuel ps s = true ↔ LikeMatches ps s))
    ∧ (∀ (vm : Bindings) (input : String) (e : ValueExpr) (pat : String)
        (esc : Option String) (negated : Bool) (s : String),
      evalValue vm input e = .ok (.string s) →
      evalLike vm input e pat esc negated =
        .ok (let atoms := patternToAtoms (esc.bind fun t => t.data.head?) pat.data
             let m := atomsMatch (atoms.length + s.data.length + 1) atoms s.data
             if negated then !m else m))
    ∧ evaluate "x LIKE 'A_B'" [("x", .string "A1B")] = .ok true
    ∧ evaluate "x LIKE 'A____'" [("x", .string "A1B")] = .ok false
    ∧ evaluate "x LIKE 'A!%B' ESCAPE '!'" [("x", .string "A%B")] = .ok true
    ∧ evaluate "x LIKE 'A!%B' ESCAPE '!'" [("x", .string "AxB")] = .ok false := by
  refine ⟨atomsMatch_iff_likeMatches, ?_, by decide, by decide, by decide, by decide⟩
  intro vm input e pat esc negated s h
  simp [evalLike, h, matchPattern, bind, Except.bind]

/-- C7 witness. -/
theorem like_anchored_wildcard_semantics_witness :
    LikeMatches [.lit 'A', .anyChar, .lit 'B'] "A1B".data :=
  (like_anchored_wildcard_semantics.1 9 [.lit 'A', .anyChar, .lit 'B'] "A1B".data
    (by decide)).mp (by decide)

/-- C8: Add, Subtract and Multiply on two Integers return an Integer
computed with 64-bit wraparound (the mathematical result modulo 2^64,
represented in the signed range); no overflow check is performed and
evaluation never fails on such inputs — adding 1 to the maximum 64-bit
signed integer wraps to the minimum value. -/
theorem integer_arithmetic_wraps :
    (∀ (vm : Bindings) (input : String) (l r : ValueExpr) (a b : Int),
      evalValue vm input l = .ok (.integer a) →
      evalValue vm input r = .ok (.integer b) →
      evalValue vm input (.add l r) = .ok (.integer (wrap64 (a + b)))
        ∧ evalValue vm input (.subtract l r) = .ok (.integer (wrap64 (a - b)))
        ∧ evalValue vm input (.multiply l r) = .ok (.integer (wrap64 (a * b))))
    ∧ (∀ x : Int, wrap64 x % 2 ^ 64 = x % 2 ^ 64
        ∧ -2 ^ 63 ≤ wrap64 x ∧ wrap64 x < 2 ^ 63)
    ∧ evalValue [] "overflow"
        (.add (.literal (.integer 9223372036854775807)) (.literal (.integer 1)))
        = .ok (.integer (-9223372036854775808)) := by
  refine ⟨?_, ?_, by decide⟩
  · intro vm input l r a b hl hr
    refine ⟨?_, ?_, ?_⟩ <;>
      simp [evalValue, hl, hr, arithAdd, arithSubtract, arithMultiply,
        SubValue.isNullB, bind, Except.bind]
  · intro x
    simp only [wrap64]
    norm_num
    omega

/-- C8 witness. -/
theorem integer_arithmetic_wraps_witness :
    evalValue [] "w" (.add (.literal (.integer 2)) (.literal (.integer 3)))
      = .ok (.integer (wrap64 (2 + 3))) :=
  (integer_arithmetic_wraps.1 [] "w" (.literal (.integer 2)) (.literal (.integer 3))
    2 3 rfl rfl).1

/-- C9: AND binds tighter than OR: whenever three boolean terms are joined
as `R1 OR R2 AND R3`, the or-level parser returns an Or node whose right
child is the And of the second and third terms; in particular
`a = 1 OR b = 2 AND c = 3` parses to a top-level Or whose right child is an
And. -/
theorem and_binds_tighter_than_or :
    (∀ (toks : List Token) (g p1 p2 p3 p4 : Nat) (r1 r2 r3 : BooleanExpr),
      parseBooleanTerm toks (g + 2) p1 = .ok (r1, p2) →
      getTok toks p2 = .kwOr →
      parseBooleanTerm toks (g + 1) (padv toks p2) = .ok (r2, p3) →
      getTok toks p3 = .kwAnd →
      parseBooleanTerm toks g (padv toks p3) = .ok (r3, p4) →
      getTok toks p4 ≠ .kwAnd →
      getTok toks p4 ≠ .kwOr →
      parseBooleanOrExpression toks (g + 4) p1 = .ok (.or r1 (.and r2 r3), p4))
    ∧ parse "a = 1 OR b = 2 AND c = 3"
        = .ok (.or (.relational (.equality (.variable "a") .equal (.literal (.integer 1))))
            (.and (.relational (.equality (.variable "b") .equal (.literal (.integer 2))))
              (.relational (.equality (.variable "c") .equal (.literal (.integer 3)))))) := by
  refine ⟨?_, by decide⟩
  intro toks g p1 p2 p3 p4 r1 r2 r3 h1 hor h2 hand h3 hna hno
  have e1 : parseBooleanAndExpression toks (g + 3) p1 = .ok (r1, p2) := by
    simp only [parseBooleanAndExpression, bind, Except.bind, h1]
    exact parseAndLoop_stop _ _ (by simp [hor])
  have e2 : parseBooleanAndExpression toks (g + 2) (padv toks p2) = .ok (.and r2 r3, p4) := by
    simp only [parseBooleanAndExpression, bind, Except.bind, h2]
    rw [parseAndLoop.eq_def, if_pos hand]
    simp only [bind, Except.bind, h3]
    exact parseAndLoop_stop _ _ hna
  simp only [parseBooleanOrExpression, bind, Except.bind, e1]
  rw [parseOrLoop.eq_def, if_pos hor]
  simp only [bind, Except.bind, e2]
  exact parseOrLoop_stop _ _ hno

/-- C9 witness. -/
theorem and_binds_tighter_than_or_witness :
    parseBooleanOrExpression
      [.ident "a", .equal, .intLit 1, .kwOr, .ident "b", .equal, .intLit 2,
        .kwAnd, .ident "c", .equal, .intLit 3, .eof] 12 0
      = .ok (.or (.relational (.equality (.variable "a") .equal (.literal (.integer 1))))
          (.and (.relational (.equality (.variable "b") .equal (.literal (.integer 2))))
            (.relational (.equality (.variable "c") .equal (.literal (.integer 3))))), 11) :=
  and_binds_tighter_than_or.1
    [.ident "a", .equal, .intLit 1, .kwOr, .ident "b", .equal, .intLit 2,
      .kwAnd, .ident "c", .equal, .intLit 3, .eof] 8 0 3 7 11 _ _ _
    (by decide) (by decide) (by decide) (by decide) (by decide) (by decide) (by decide)

/-- C10: an empty IN / NOT IN list is a parse error: whenever the token
after the list's opening parenthesis is the closing parenthesis, the list
parser fails (it demands a literal first), for any fuel and position; in
particular `x IN ()` and `x NOT IN ()` fail to parse. -/
theorem empty_in_list_rejected :
    (∀ (toks : List Token) (fuel p : Nat),
      getTok toks p = .lparen →
      getTok toks (padv toks p) = .rparen →
      (parseStringList toks fuel p).isOkB = false)
    ∧ (parse "x IN ()").isOkB = false
    ∧ (parse "x NOT IN ()").isOkB = false := by
  refine ⟨?_, by decide, by decide⟩
  intro toks fuel p h1 h2
  simp [parseStringList, expectTok, h1, h2, expectValueLiteral, bind, Except.bind,
    Except.isOkB]

/-- C10 witness. -/
theorem empty_in_list_rejected_witness :
    (parseStringList [.lparen, .rparen] 5 0).isOkB = false :=
  empty_in_list_rejected.1 [.lparen, .rparen] 5 0 (by decide) (by decide)

end SqlExpr
